import Mathlib

/-!
Verification development for the nvrhi resource-state tracking and barrier
synthesis subsystem (fork lawfuyang/nvrhi).

Shallow embedding notes:
- C++ unsigned 32/64-bit arithmetic is modelled on Nat with explicit
  reductions modulo 2^32 or 2^64 at the operations where wraparound can
  occur in the source.
- The common state tracker (CommandListResourceStateTracker) is not part of
  the excerpted sources; only its callers, its per-resource record types
  (d3d12-backend.h, TextureState / BufferState) and the barrier-record
  consumers (vulkan-state-tracking.cpp) are.  Definitions for the missing
  tracker operations are modelled from the spec and are marked
  "Modelled from the spec:" in their doc comments.  All other definitions
  are translated from the source files.
-/

namespace Nvrhi

/-- Resource states (nvrhi::ResourceStates): a bit-set of access/usage
flags over uint32, with Unknown = 0 the "not yet tracked" sentinel. -/
abbrev ResourceStates := Nat

def ResourceStates.Unknown : ResourceStates := 0
def ResourceStates.Common : ResourceStates := 1
def ResourceStates.ConstantBuffer : ResourceStates := 2
def ResourceStates.VertexBuffer : ResourceStates := 4
def ResourceStates.IndexBuffer : ResourceStates := 8
def ResourceStates.IndirectArgument : ResourceStates := 16
def ResourceStates.ShaderResource : ResourceStates := 32
def ResourceStates.UnorderedAccess : ResourceStates := 64
def ResourceStates.RenderTarget : ResourceStates := 128
def ResourceStates.DepthWrite : ResourceStates := 256
def ResourceStates.DepthRead : ResourceStates := 512
def ResourceStates.CopyDest : ResourceStates := 1024
def ResourceStates.CopySource : ResourceStates := 2048
def ResourceStates.AccelStructRead : ResourceStates := 4096

/-- Texture dimensions (nvrhi::TextureDimension), restricted to the
constructors that the excerpted code distinguishes. -/
inductive TextureDimension where
  | Texture1D
  | Texture1DArray
  | Texture2D
  | Texture2DArray
  | TextureCube
  | TextureCubeArray
  | Texture2DMS
  | Texture2DMSArray
  | Texture3D
deriving DecidableEq

/-- The texture dimensions treated as arrayed by the switch statements in
TextureSubresourceSet::resolve and isEntireTexture (misc.cpp). -/
def TextureDimension.isArrayKind : TextureDimension → Bool
  | .Texture1DArray => true
  | .Texture2DArray => true
  | .TextureCube => true
  | .TextureCubeArray => true
  | .Texture2DMSArray => true
  | _ => false

/-- The fields of nvrhi::TextureDesc that the state-tracking code reads. -/
structure TextureDesc where
  mipLevels : Nat := 1
  arraySize : Nat := 1
  dimension : TextureDimension := TextureDimension.Texture2D
deriving DecidableEq

/-- nvrhi::TextureSubresourceSet: a mip range and an array-slice range,
each a (base, count) pair of uint32 values. -/
structure TextureSubresourceSet where
  baseMipLevel : Nat
  numMipLevels : Nat
  baseArraySlice : Nat
  numArraySlices : Nat
deriving DecidableEq

/-- nvrhi AllMipLevels sentinel: MipLevel(-1) = 2^32 - 1. -/
def AllMipLevels : Nat := 2 ^ 32 - 1

/-- nvrhi AllArraySlices sentinel: ArraySlice(-1) = 2^32 - 1. -/
def AllArraySlices : Nat := 2 ^ 32 - 1

/-- nvrhi::AllSubresources: the whole-texture wildcard subresource set. -/
def AllSubresources : TextureSubresourceSet :=
  { baseMipLevel := 0, numMipLevels := AllMipLevels,
    baseArraySlice := 0, numArraySlices := AllArraySlices }

/-- TextureSubresourceSet::resolve (misc.cpp lines 75-109).  The uint32
additions baseMipLevel + numMipLevels and baseArraySlice + numArraySlices
wrap modulo 2^32, and the unsigned subtraction lastPlusOne - base wraps
modulo 2^32 as well; std::max(0u, x) is the identity on unsigned x. -/
def TextureSubresourceSet.resolve (s : TextureSubresourceSet) (desc : TextureDesc)
    (singleMipLevel : Bool) : TextureSubresourceSet :=
  let retNumMipLevels :=
    if singleMipLevel then 1
    else
      let lastMipLevelPlusOne := min ((s.baseMipLevel + s.numMipLevels) % 2 ^ 32) desc.mipLevels
      (lastMipLevelPlusOne + 2 ^ 32 - s.baseMipLevel) % 2 ^ 32
  if desc.dimension.isArrayKind then
    let lastArraySlicePlusOne := min ((s.baseArraySlice + s.numArraySlices) % 2 ^ 32) desc.arraySize
    { baseMipLevel := s.baseMipLevel, numMipLevels := retNumMipLevels,
      baseArraySlice := s.baseArraySlice,
      numArraySlices := (lastArraySlicePlusOne + 2 ^ 32 - s.baseArraySlice) % 2 ^ 32 }
  else
    { baseMipLevel := s.baseMipLevel, numMipLevels := retNumMipLevels,
      baseArraySlice := 0, numArraySlices := 1 }

/-- TextureSubresourceSet::isEntireTexture (misc.cpp lines 111-128), with
the uint32 additions taken modulo 2^32. -/
def TextureSubresourceSet.isEntireTexture (s : TextureSubresourceSet)
    (desc : TextureDesc) : Bool :=
  if s.baseMipLevel > 0 ∨ (s.baseMipLevel + s.numMipLevels) % 2 ^ 32 < desc.mipLevels then
    false
  else if desc.dimension.isArrayKind then
    ¬(s.baseArraySlice > 0 ∨ (s.baseArraySlice + s.numArraySlices) % 2 ^ 32 < desc.arraySize)
  else
    true

/-- The field of nvrhi::BufferDesc that BufferRange::resolve and the
state-tracking code read, plus the isVolatile flag branched on by
d3d12 CommandList::writeBuffer. -/
structure BufferDesc where
  byteSize : Nat := 0
  isVolatile : Bool := false
deriving DecidableEq

/-- nvrhi::BufferRange: byteOffset and byteSize are uint64. -/
structure BufferRange where
  byteOffset : Nat
  byteSize : Nat
deriving DecidableEq

/-- BufferRange::resolve (misc.cpp lines 130-139).  The unsigned
subtraction desc.byteSize - result.byteOffset is taken modulo 2^64. -/
def BufferRange.resolve (r : BufferRange) (desc : BufferDesc) : BufferRange :=
  let resultByteOffset := min r.byteOffset desc.byteSize
  if r.byteSize = 0 then
    { byteOffset := resultByteOffset,
      byteSize := (desc.byteSize + 2 ^ 64 - resultByteOffset) % 2 ^ 64 }
  else
    { byteOffset := resultByteOffset,
      byteSize := min r.byteSize ((desc.byteSize + 2 ^ 64 - resultByteOffset) % 2 ^ 64) }

/-- Per-texture persistent state record (d3d12-backend.h lines 751-763):
one stored state per subresource, initialized to Unknown by the
constructor, plus the UAV-barrier and pinning flags. -/
structure TextureState where
  subresourceStates : List ResourceStates
  enableUavBarriers : Bool := true
  firstUavBarrierPlaced : Bool := false
  permanentTransition : Bool := false
deriving DecidableEq

/-- TextureState constructor (d3d12-backend.h lines 759-762): all
subresource states start at c_ResourceStateUnknown. -/
def TextureState.create (numSubresources : Nat) : TextureState :=
  { subresourceStates := List.replicate numSubresources ResourceStates.Unknown }

/-- Per-buffer persistent state record (d3d12-backend.h lines 765-773):
a single scalar state plus the same flags.  volatileData is carried but
never read by the modelled operations. -/
structure BufferState where
  state : ResourceStates := ResourceStates.Unknown
  enableUavBarriers : Bool := true
  firstUavBarrierPlaced : Bool := false
  volatileData : Nat := 0
  permanentTransition : Bool := false
deriving DecidableEq

/-- A texture resource: its immutable descriptor together with its
persistent state record. -/
structure Texture where
  desc : TextureDesc
  state : TextureState
deriving DecidableEq

/-- A buffer resource: its immutable descriptor together with its
persistent state record. -/
structure Buffer where
  desc : BufferDesc
  state : BufferState
deriving DecidableEq

/-- Pending texture transition record, shaped after the nvrhi
TextureBarrier consumed by vulkan CommandList::commitBarriersInternal
(vulkan-state-tracking.cpp lines 203-236): the record denotes either the
entire texture or exactly one (mipLevel, arraySlice) subresource.  The
texture pointer is modelled as an id plus the dereferenced descriptor. -/
structure TextureBarrier where
  textureId : Nat
  desc : TextureDesc
  entireTexture : Bool
  mipLevel : Nat
  arraySlice : Nat
  stateBefore : ResourceStates
  stateAfter : ResourceStates
deriving DecidableEq

/-- Pending buffer transition record, shaped after the nvrhi BufferBarrier
consumed by vulkan CommandList::commitBarriersInternal
(vulkan-state-tracking.cpp lines 249-265). -/
structure BufferBarrier where
  bufferId : Nat
  desc : BufferDesc
  stateBefore : ResourceStates
  stateAfter : ResourceStates
deriving DecidableEq

/-- Flat subresource index (spec section 4.1): mipLevel * arraySliceCount +
arraySlice, with arraySliceCount = desc.arraySize. -/
def subresourceIndex (desc : TextureDesc) (mipLevel arraySlice : Nat) : Nat :=
  mipLevel * desc.arraySize + arraySlice

/-- The (mipLevel, arraySlice) pairs enumerated by a resolved subresource
set, mip-major. -/
def rangePairs (sr : TextureSubresourceSet) : List (Nat × Nat) :=
  ((List.range sr.numMipLevels).map (fun m => sr.baseMipLevel + m)) ×ˢ
    ((List.range sr.numArraySlices).map (fun a => sr.baseArraySlice + a))

/-- Modelled from the spec: the per-subresource step of the missing common
tracker requireTextureState (spec section 4.2).  Compares the stored state
at the given flat index with the desired state; if equal and not
UnorderedAccess, skip; if equal and UnorderedAccess, synthesize a
same-state UAV hazard pair when enableUavBarriers and the flag is not yet
placed; if different, synthesize the pair, store the desired state and set
firstUavBarrierPlaced to whether the desired state is UnorderedAccess.
Returns the updated record and the optional (stateBefore, stateAfter)
emission. -/
def requireStep (ts : TextureState) (idx : Nat) (state : ResourceStates) :
    TextureState × Option (ResourceStates × ResourceStates) :=
  if ts.subresourceStates.getD idx ResourceStates.Unknown = state then
    if state = ResourceStates.UnorderedAccess then
      if ts.enableUavBarriers ∧ ¬ts.firstUavBarrierPlaced then
        ({ ts with firstUavBarrierPlaced := true }, some (state, state))
      else (ts, none)
    else (ts, none)
  else
    ({ ts with subresourceStates := ts.subresourceStates.set idx state,
               firstUavBarrierPlaced := (state = ResourceStates.UnorderedAccess) },
     some (ts.subresourceStates.getD idx ResourceStates.Unknown, state))

/-- Modelled from the spec: the loop of the missing common tracker
requireTextureState over the resolved subresource list, collecting every
emitted (mipLevel, arraySlice, stateBefore, stateAfter) item in order. -/
def requireLoop (desc : TextureDesc) (state : ResourceStates) :
    List (Nat × Nat) → TextureState →
    TextureState × List (Nat × Nat × ResourceStates × ResourceStates)
  | [], ts => (ts, [])
  | (m, a) :: rest, ts =>
      let step := requireStep ts (subresourceIndex desc m a) state
      let tail := requireLoop desc state rest step.1
      (tail.1,
       (match step.2 with
        | some (b, af) => [(m, a, b, af)]
        | none => []) ++ tail.2)

/-- Modelled from the spec: the coalescing step of the missing common
tracker requireTextureState.  The emissions collapse into one
entire-texture record exactly when every subresource of the resolved range
emitted the same (stateBefore, stateAfter) pair and the resolved range is
the entire texture (the record shape consumed by the in-source
commitBarriersInternal admits only entire-texture or single-subresource
ranges); otherwise one single-subresource record per emission. -/
def coalesce (texId : Nat) (desc : TextureDesc) (sr : TextureSubresourceSet) :
    List (Nat × Nat × ResourceStates × ResourceStates) → List TextureBarrier
  | [] => []
  | (m0, a0, b0, af0) :: rest =>
      if ((m0, a0, b0, af0) :: rest).length = sr.numMipLevels * sr.numArraySlices ∧
         sr.isEntireTexture desc = true ∧
         ((m0, a0, b0, af0) :: rest).all (fun e => e.2.2.1 = b0 ∧ e.2.2.2 = af0) then
        [{ textureId := texId, desc := desc, entireTexture := true,
           mipLevel := 0, arraySlice := 0, stateBefore := b0, stateAfter := af0 }]
      else
        ((m0, a0, b0, af0) :: rest).map fun e =>
          { textureId := texId, desc := desc, entireTexture := false,
            mipLevel := e.1, arraySlice := e.2.1,
            stateBefore := e.2.2.1, stateAfter := e.2.2.2 }

/-- Modelled from the spec: the missing common tracker requireTextureState
(spec section 4.2).  A permanentTransition record is skipped as a silent
no-op.  Otherwise the subresource set is resolved against the descriptor,
each subresource is processed, and the emissions are coalesced into a
single entire-texture record exactly when every subresource of the
resolved range emitted the same (stateBefore, stateAfter) pair and the
resolved range is the entire texture; otherwise one record per emitted
subresource is appended, matching the record shape consumed by the
in-source commitBarriersInternal (entire texture or single subresource). -/
def requireTextureState (texId : Nat) (desc : TextureDesc) (ts : TextureState)
    (subresources : TextureSubresourceSet) (state : ResourceStates) :
    TextureState × List TextureBarrier :=
  if ts.permanentTransition then (ts, [])
  else
    let sr := subresources.resolve desc false
    let out := requireLoop desc state (rangePairs sr) ts
    (out.1, coalesce texId desc sr out.2)

/-- Modelled from the spec: the missing common tracker requireBufferState
(spec section 4.2), the same logic with a scalar state. -/
def requireBufferState (bufId : Nat) (desc : BufferDesc) (bs : BufferState)
    (state : ResourceStates) : BufferState × List BufferBarrier :=
  if bs.permanentTransition then (bs, [])
  else if bs.state = state then
    if state = ResourceStates.UnorderedAccess ∧
       bs.enableUavBarriers ∧ ¬bs.firstUavBarrierPlaced then
      ({ bs with firstUavBarrierPlaced := true },
       [{ bufferId := bufId, desc := desc, stateBefore := state, stateAfter := state }])
    else (bs, [])
  else
    ({ bs with state := state,
               firstUavBarrierPlaced := (state = ResourceStates.UnorderedAccess) },
     [{ bufferId := bufId, desc := desc, stateBefore := bs.state, stateAfter := state }])

/-- Modelled from the spec: the missing common tracker
beginTrackingTextureState (spec section 4.2), seeding the stored states of
the resolved range without emitting any transition. -/
def beginTrackingTextureState (desc : TextureDesc) (ts : TextureState)
    (subresources : TextureSubresourceSet) (stateBits : ResourceStates) : TextureState :=
  let sr := subresources.resolve desc false
  let seeded := (rangePairs sr).foldl
    (fun l p => l.set (subresourceIndex desc p.1 p.2) stateBits) ts.subresourceStates
  { ts with subresourceStates := seeded }

/-- Modelled from the spec: the missing common tracker
setPermanentTextureState (spec section 4.2): force one final transition to
stateBits through requireTextureState (the in-source vulkan CommandList
passes AllSubresources), then mark the record permanentTransition. -/
def setPermanentTextureState (texId : Nat) (desc : TextureDesc) (ts : TextureState)
    (stateBits : ResourceStates) : TextureState × List TextureBarrier :=
  let out := requireTextureState texId desc ts AllSubresources stateBits
  ({ out.1 with permanentTransition := true }, out.2)

/-- Modelled from the spec: the missing common tracker
setPermanentBufferState (spec section 4.2). -/
def setPermanentBufferState (bufId : Nat) (desc : BufferDesc) (bs : BufferState)
    (stateBits : ResourceStates) : BufferState × List BufferBarrier :=
  let out := requireBufferState bufId desc bs stateBits
  ({ out.1 with permanentTransition := true }, out.2)

/-- Modelled from the spec: the missing common tracker
getTextureSubresourceState, an O(1) lookup in the flat per-subresource
array (spec section 4.1), delegated to by the in-source vulkan
CommandList::getTextureSubresourceState. -/
def getTextureSubresourceState (desc : TextureDesc) (ts : TextureState)
    (arraySlice mipLevel : Nat) : ResourceStates :=
  ts.subresourceStates.getD (subresourceIndex desc mipLevel arraySlice)
    ResourceStates.Unknown

/-- Modelled from the spec: the missing common tracker getBufferState,
delegated to by the in-source vulkan CommandList::getBufferState. -/
def getBufferState (bs : BufferState) : ResourceStates :=
  bs.state

/-- The translated native image barrier description
(vulkan-state-tracking.cpp lines 219-236).  The access-mask / stage-mask /
image-layout lookup (convertResourceState) is an external collaborator
keyed by the abstract state value, so the description keeps the abstract
states; the subresource range fields follow the in-source computation. -/
structure VkImageMemoryBarrier2 where
  textureId : Nat
  stateBefore : ResourceStates
  stateAfter : ResourceStates
  baseArrayLayer : Nat
  layerCount : Nat
  baseMipLevel : Nat
  levelCount : Nat
deriving DecidableEq

/-- The translated native buffer barrier description
(vulkan-state-tracking.cpp lines 251-265), with the abstract states in
place of the external convertResourceState lookup. -/
structure VkBufferMemoryBarrier2 where
  bufferId : Nat
  stateBefore : ResourceStates
  stateAfter : ResourceStates
  offset : Nat
  size : Nat
deriving DecidableEq

/-- Translation of one pending texture record into exactly one native
image barrier description (vulkan-state-tracking.cpp lines 203-236). -/
def translateTextureBarrier (b : TextureBarrier) : VkImageMemoryBarrier2 :=
  { textureId := b.textureId,
    stateBefore := b.stateBefore, stateAfter := b.stateAfter,
    baseArrayLayer := if b.entireTexture then 0 else b.arraySlice,
    layerCount := if b.entireTexture then b.desc.arraySize else 1,
    baseMipLevel := if b.entireTexture then 0 else b.mipLevel,
    levelCount := if b.entireTexture then b.desc.mipLevels else 1 }

/-- Translation of one pending buffer record into exactly one native
buffer barrier description (vulkan-state-tracking.cpp lines 249-265). -/
def translateBufferBarrier (b : BufferBarrier) : VkBufferMemoryBarrier2 :=
  { bufferId := b.bufferId,
    stateBefore := b.stateBefore, stateAfter := b.stateAfter,
    offset := 0, size := b.desc.byteSize }

/-- Native commands recorded into the command buffer by the modelled
operations. -/
inductive NativeCmd where
  | imageBarrierBatch (barriers : List VkImageMemoryBarrier2)
  | bufferBarrierBatch (barriers : List VkBufferMemoryBarrier2)
  | renderPassEnd
  | copyBufferRegion (destId srcId destOffset srcOffset size : Nat)
  | copyImageToBuffer (srcTexId dstBufId : Nat)
  | copyBufferToImage (srcBufId dstTexId : Nat)
deriving DecidableEq

/-- True exactly on the GPU-visible copy/write commands among the recorded
native commands. -/
def NativeCmd.isCopyCmd : NativeCmd → Bool
  | .copyBufferRegion _ _ _ _ _ => true
  | .copyImageToBuffer _ _ => true
  | .copyBufferToImage _ _ => true
  | _ => false

/-- True exactly on the batched native barrier submission calls. -/
def NativeCmd.isBarrierBatch : NativeCmd → Bool
  | .imageBarrierBatch _ => true
  | .bufferBarrierBatch _ => true
  | _ => false

/-- The command-list recording state that the modelled operations touch:
the pending transition lists of the tracker, the render-pass flag, the
automatic-barriers switch and the recorded native command sequence. -/
structure CmdState where
  textureBarriers : List TextureBarrier
  bufferBarriers : List BufferBarrier
  renderPassActive : Bool
  enableAutomaticBarriers : Bool
  commands : List NativeCmd
deriving DecidableEq

/-- Modelled from the spec: endRenderPass, the render-pass boundary
notifier (spec section 6) invoked by the in-source commitBarriers before
the barrier batch; ends the in-flight pass when one is active. -/
def endRenderPass (cs : CmdState) : CmdState :=
  if cs.renderPassActive then
    { cs with renderPassActive := false,
              commands := cs.commands ++ [NativeCmd.renderPassEnd] }
  else cs

/-- CommandList::commitBarriersInternal (vulkan-state-tracking.cpp lines
198-278): translate every pending texture record, submit them as one
batched call when any exist, do the same for the pending buffer records,
then clear both pending lists (tracker clearBarriers). -/
def commitBarriersInternal (cs : CmdState) : CmdState :=
  let imageBarriers := cs.textureBarriers.map translateTextureBarrier
  let cmds1 :=
    if imageBarriers.isEmpty then cs.commands
    else cs.commands ++ [NativeCmd.imageBarrierBatch imageBarriers]
  let bufBarriers := cs.bufferBarriers.map translateBufferBarrier
  let cmds2 :=
    if bufBarriers.isEmpty then cmds1
    else cmds1 ++ [NativeCmd.bufferBarrierBatch bufBarriers]
  { cs with commands := cmds2, textureBarriers := [], bufferBarriers := [] }

/-- CommandList::commitBarriers (vulkan-state-tracking.cpp lines 280-288):
a no-op when both pending lists are empty, otherwise end any active render
pass and run commitBarriersInternal. -/
def commitBarriers (cs : CmdState) : CmdState :=
  if cs.bufferBarriers.isEmpty ∧ cs.textureBarriers.isEmpty then cs
  else commitBarriersInternal (endRenderPass cs)

/-- Appends the records produced by a requireTextureState call to the
pending list, as the in-source CommandList::requireTextureState does by
delegating to the tracker. -/
def cmdRequireTextureState (cs : CmdState) (texId : Nat) (tex : Texture)
    (subresources : TextureSubresourceSet) (state : ResourceStates) :
    CmdState × Texture :=
  let out := requireTextureState texId tex.desc tex.state subresources state
  ({ cs with textureBarriers := cs.textureBarriers ++ out.2 },
   { tex with state := out.1 })

/-- Appends the records produced by a requireBufferState call to the
pending list, as the in-source CommandList::requireBufferState does by
delegating to the tracker. -/
def cmdRequireBufferState (cs : CmdState) (bufId : Nat) (buf : Buffer)
    (state : ResourceStates) : CmdState × Buffer :=
  let out := requireBufferState bufId buf.desc buf.state state
  ({ cs with bufferBarriers := cs.bufferBarriers ++ out.2 },
   { buf with state := out.1 })

/-- CommandList::copyBuffer (d3d12-buffer.cpp lines 630-653): when
automatic barriers are enabled, require CopyDest on the destination and
CopySource on the source; commit barriers; then record the native
CopyBufferRegion.  Returns the command state and the two updated buffer
records. -/
def copyBuffer (cs : CmdState) (destId : Nat) (dest : Buffer) (srcId : Nat)
    (src : Buffer) (destOffsetBytes srcOffsetBytes dataSizeBytes : Nat) :
    CmdState × Buffer × Buffer :=
  let s1 :=
    if cs.enableAutomaticBarriers then
      let r1 := cmdRequireBufferState cs destId dest ResourceStates.CopyDest
      let r2 := cmdRequireBufferState r1.1 srcId src ResourceStates.CopySource
      (r2.1, r1.2, r2.2)
    else (cs, dest, src)
  let cs2 := commitBarriers s1.1
  ({ cs2 with commands := cs2.commands ++
      [NativeCmd.copyBufferRegion destId srcId destOffsetBytes srcOffsetBytes dataSizeBytes] },
   s1.2.1, s1.2.2)

/-- CommandList::writeBuffer (d3d12-buffer.cpp lines 585-594, non-volatile
path; upload-buffer suballocation is an external collaborator assumed to
succeed): when the buffer is volatile only the CPU-side address record
changes; otherwise, when automatic barriers are enabled require CopyDest,
then commit barriers and record the native CopyBufferRegion from the
upload buffer (modelled with id uploadId). -/
def writeBuffer (cs : CmdState) (bufId : Nat) (buf : Buffer)
    (destOffsetBytes dataSize uploadId offsetInUploadBuffer gpuVA : Nat) :
    CmdState × Buffer :=
  if buf.desc.isVolatile then
    (cs, { buf with state := { buf.state with volatileData := gpuVA } })
  else
    let s1 :=
      if cs.enableAutomaticBarriers then
        cmdRequireBufferState cs bufId buf ResourceStates.CopyDest
      else (cs, buf)
    let cs2 := commitBarriers s1.1
    ({ cs2 with commands := cs2.commands ++
        [NativeCmd.copyBufferRegion bufId uploadId destOffsetBytes offsetInUploadBuffer dataSize] },
     s1.2)

/-- CommandList::copyTexture, texture to staging
(vulkan-staging-texture.cpp lines 160-212): when automatic barriers are
enabled, require CopyDest on the staging buffer and CopySource on the
single source subresource; commit barriers; record the native
copyImageToBuffer. -/
def copyTextureToStaging (cs : CmdState) (dstBufId : Nat) (dstBuf : Buffer)
    (srcTexId : Nat) (srcTex : Texture) (srcMipLevel srcArraySlice : Nat) :
    CmdState × Buffer × Texture :=
  let srcSubresource : TextureSubresourceSet :=
    { baseMipLevel := srcMipLevel, numMipLevels := 1,
      baseArraySlice := srcArraySlice, numArraySlices := 1 }
  let s1 :=
    if cs.enableAutomaticBarriers then
      let r1 := cmdRequireBufferState cs dstBufId dstBuf ResourceStates.CopyDest
      let r2 := cmdRequireTextureState r1.1 srcTexId srcTex srcSubresource
        ResourceStates.CopySource
      (r2.1, r1.2, r2.2)
    else (cs, dstBuf, srcTex)
  let cs2 := commitBarriers s1.1
  ({ cs2 with commands := cs2.commands ++ [NativeCmd.copyImageToBuffer srcTexId dstBufId] },
   s1.2.1, s1.2.2)

/-- CommandList::copyTexture, staging to texture
(vulkan-staging-texture.cpp lines 214-267): when automatic barriers are
enabled, require CopySource on the staging buffer and CopyDest on the
single destination subresource; commit barriers; record the native
copyBufferToImage. -/
def copyStagingToTexture (cs : CmdState) (dstTexId : Nat) (dstTex : Texture)
    (srcBufId : Nat) (srcBuf : Buffer) (dstMipLevel dstArraySlice : Nat) :
    CmdState × Texture × Buffer :=
  let dstSubresource : TextureSubresourceSet :=
    { baseMipLevel := dstMipLevel, numMipLevels := 1,
      baseArraySlice := dstArraySlice, numArraySlices := 1 }
  let s1 :=
    if cs.enableAutomaticBarriers then
      let r1 := cmdRequireBufferState cs srcBufId srcBuf ResourceStates.CopySource
      let r2 := cmdRequireTextureState r1.1 dstTexId dstTex dstSubresource
        ResourceStates.CopyDest
      (r2.1, r2.2, r1.2)
    else (cs, dstTex, srcBuf)
  let cs2 := commitBarriers s1.1
  ({ cs2 with commands := cs2.commands ++ [NativeCmd.copyBufferToImage srcBufId dstTexId] },
   s1.2.1, s1.2.2)

/-- The fields of a binding set that
CommandList::insertResourceBarriersForBindingSets reads: whether getDesc()
is null (bindless descriptor table) and whether the set holds any UAV
binding; the id stands for the object identity compared by
arrayDifferenceMask. -/
structure BindingSetModel where
  id : Nat
  isBindless : Bool
  hasUavBindings : Bool
deriving DecidableEq

/-- Modelled from the spec: arrayDifferenceMask (nvrhi common header, not
among the excerpted sources) as described in spec section 4.4: a bitmask
with one bit per binding slot, the bit set exactly when that slot changed;
differing lengths invalidate every slot. -/
def arrayDifferenceMask (a b : List BindingSetModel) : Nat :=
  if a.length ≠ b.length then 2 ^ 32 - 1
  else
    (List.range a.length).foldl
      (fun mask i => if a.get? i ≠ b.get? i then mask ||| 2 ^ i else mask) 0

/-- CommandList::insertResourceBarriersForBindingSets
(vulkan-state-tracking.cpp lines 78-102): the overall update mask is all
ones when the dirty flag is set, otherwise the slot-diff mask; when the
mask is nonzero, every non-bindless new binding set whose slot bit is set
or which has UAV bindings is submitted to setResourceStatesForBindingSet.
Returns the submitted binding sets in order. -/
def insertResourceBarriersForBindingSets (bindingStatesDirty : Bool)
    (newBindings oldBindings : List BindingSetModel) : List BindingSetModel :=
  let mask0 : Nat := if bindingStatesDirty then 2 ^ 32 - 1 else 0
  let mask := if mask0 = 0 then arrayDifferenceMask newBindings oldBindings else mask0
  if mask ≠ 0 then
    (List.range newBindings.length).filterMap fun i =>
      match newBindings.get? i with
      | some bs =>
          if bs.isBindless then none
          else if Nat.testBit mask i ∨ bs.hasUavBindings then some bs
          else none
      | none => none
  else []

/-- A 1-mip, 1-slice 2D texture descriptor. -/
def exDesc1 : TextureDesc :=
  { mipLevels := 1, arraySize := 1, dimension := TextureDimension.Texture2D }

/-- A 4-mip, 1-slice 2D texture descriptor. -/
def exDesc4 : TextureDesc :=
  { mipLevels := 4, arraySize := 1, dimension := TextureDimension.Texture2D }

/-- A texture record pinned to CopySource through setPermanentTextureState. -/
def exPinned : TextureState :=
  (setPermanentTextureState 0 exDesc1 (TextureState.create 1) ResourceStates.CopySource).1

/-- A 4-subresource record entirely in ShaderResource. -/
def exTsShaderResource4 : TextureState :=
  { subresourceStates := List.replicate 4 ResourceStates.ShaderResource,
    enableUavBarriers := true, firstUavBarrierPlaced := false, permanentTransition := false }

/-- The subresource set selecting mips 0-1 of slice 0. -/
def exSubMips01 : TextureSubresourceSet :=
  { baseMipLevel := 0, numMipLevels := 2, baseArraySlice := 0, numArraySlices := 1 }

/-- The single-subresource transition record for mip 0 of the 4-mip
scenario. -/
def exUavRecordMip0 : TextureBarrier :=
  { textureId := 0, desc := exDesc4, entireTexture := false, mipLevel := 0, arraySlice := 0,
    stateBefore := ResourceStates.ShaderResource, stateAfter := ResourceStates.UnorderedAccess }

/-- The single-subresource transition record for mip 1 of the 4-mip
scenario. -/
def exUavRecordMip1 : TextureBarrier :=
  { textureId := 0, desc := exDesc4, entireTexture := false, mipLevel := 1, arraySlice := 0,
    stateBefore := ResourceStates.ShaderResource, stateAfter := ResourceStates.UnorderedAccess }

/-- A concrete pending texture record used by concrete evaluations. -/
def exTextureBarrier : TextureBarrier :=
  { textureId := 0,
    desc := { mipLevels := 1, arraySize := 1, dimension := TextureDimension.Texture2D },
    entireTexture := true, mipLevel := 0, arraySlice := 0,
    stateBefore := ResourceStates.Unknown, stateAfter := ResourceStates.ShaderResource }

/-- A concrete pending buffer record used by concrete evaluations. -/
def exBufferBarrier : BufferBarrier :=
  { bufferId := 1, desc := { byteSize := 16, isVolatile := false },
    stateBefore := ResourceStates.Unknown, stateAfter := ResourceStates.CopyDest }

/-- A command-list state holding one pending record of each kind. -/
def exCmdStateBoth : CmdState :=
  { textureBarriers := [exTextureBarrier], bufferBarriers := [exBufferBarrier],
    renderPassActive := false, enableAutomaticBarriers := true, commands := [] }

/-- An empty command-list state with automatic barriers enabled. -/
def exCmdStateAuto : CmdState :=
  { textureBarriers := [], bufferBarriers := [], renderPassActive := false,
    enableAutomaticBarriers := true, commands := [] }

/-- A command-list state with automatic barriers disabled and one pending
buffer record left over from earlier recording. -/
def exCmdStateNoAuto : CmdState :=
  { textureBarriers := [], bufferBarriers := [exBufferBarrier], renderPassActive := false,
    enableAutomaticBarriers := false, commands := [] }

/-- A fresh non-volatile 16-byte buffer resource. -/
def exBuffer : Buffer :=
  { desc := { byteSize := 16, isVolatile := false },
    state := { state := ResourceStates.Unknown, enableUavBarriers := true,
               firstUavBarrierPlaced := false, volatileData := 0,
               permanentTransition := false } }

/-- A fresh 4-mip texture resource. -/
def exTexture : Texture :=
  { desc := exDesc4, state := TextureState.create 4 }

/-! Helper lemmas. -/

lemma getD_set_ne {α : Type} (l : List α) (i j : Nat) (a d : α) (h : i ≠ j) :
    (l.set i a).getD j d = l.getD j d := by
  rw [List.getD_eq_getD_get?, List.getD_eq_getD_get?, List.get?_set_ne _ _ h]

lemma getD_set_self {α : Type} (l : List α) (i : Nat) (a d : α) (h : i < l.length) :
    (l.set i a).getD i d = a := by
  rw [List.getD_eq_getD_get?, List.get?_set_eq_of_lt _ h, Option.getD_some]

/-! Resolution lemmas. -/

/-- Resolving the AllSubresources wildcard against an in-range descriptor
expands it to the whole mip chain and, for arrayed dimensions, the whole
slice range. -/
lemma resolve_allSubresources (desc : TextureDesc)
    (hm : desc.mipLevels < 2 ^ 32) (ha : desc.arraySize < 2 ^ 32) :
    AllSubresources.resolve desc false =
      { baseMipLevel := 0, numMipLevels := desc.mipLevels, baseArraySlice := 0,
        numArraySlices := if desc.dimension.isArrayKind then desc.arraySize else 1 } := by
  simp only [TextureSubresourceSet.resolve, AllSubresources, AllMipLevels, AllArraySlices,
    Bool.false_eq_true, if_false]
  split
  · next harr =>
      simp only [harr, if_true, TextureSubresourceSet.mk.injEq]
      exact ⟨trivial, by omega, trivial, by omega⟩
  · next harr =>
      simp only [harr, TextureSubresourceSet.mk.injEq]
      exact ⟨trivial, by omega, trivial, trivial⟩

/-- The expansion of AllSubresources is recognized as the entire texture. -/
lemma isEntireTexture_expansion (desc : TextureDesc)
    (hm : desc.mipLevels < 2 ^ 32) (ha : desc.arraySize < 2 ^ 32) :
    TextureSubresourceSet.isEntireTexture
      { baseMipLevel := 0, numMipLevels := desc.mipLevels, baseArraySlice := 0,
        numArraySlices := if desc.dimension.isArrayKind then desc.arraySize else 1 }
      desc = true := by
  simp only [TextureSubresourceSet.isEntireTexture]
  rw [if_neg (by push_neg; constructor <;> omega)]
  split
  · next harr =>
      simp only [harr, if_true, decide_eq_true_eq]
      push_neg
      constructor <;> omega
  · rfl

/-! Lemmas about the per-subresource step. -/

lemma requireStep_length (ts : TextureState) (idx : Nat) (st : ResourceStates) :
    ((requireStep ts idx st).1).subresourceStates.length = ts.subresourceStates.length := by
  unfold requireStep
  split
  · split
    · split <;> rfl
    · rfl
  · simp

lemma requireStep_enable (ts : TextureState) (idx : Nat) (st : ResourceStates) :
    ((requireStep ts idx st).1).enableUavBarriers = ts.enableUavBarriers := by
  unfold requireStep
  split
  · split
    · split <;> rfl
    · rfl
  · rfl

lemma requireStep_perm (ts : TextureState) (idx : Nat) (st : ResourceStates) :
    ((requireStep ts idx st).1).permanentTransition = ts.permanentTransition := by
  unfold requireStep
  split
  · split
    · split <;> rfl
    · rfl
  · rfl

lemma requireStep_getD_ne (ts : TextureState) (idx : Nat) (st : ResourceStates)
    (j : Nat) (h : idx ≠ j) :
    ((requireStep ts idx st).1).subresourceStates.getD j ResourceStates.Unknown =
      ts.subresourceStates.getD j ResourceStates.Unknown := by
  unfold requireStep
  split
  · split
    · split <;> rfl
    · rfl
  · exact getD_set_ne _ _ _ _ _ h

lemma requireStep_getD_absorb (ts : TextureState) (idx : Nat) (st : ResourceStates)
    (j : Nat) (h : ts.subresourceStates.getD j ResourceStates.Unknown = st) :
    ((requireStep ts idx st).1).subresourceStates.getD j ResourceStates.Unknown = st := by
  by_cases hj : idx = j
  · subst hj
    unfold requireStep
    rw [if_pos h]
    split
    · split <;> exact h
    · exact h
  · rw [requireStep_getD_ne ts idx st j hj]
    exact h

/-! Lemmas about the subresource loop. -/

lemma requireLoop_length (desc : TextureDesc) (st : ResourceStates)
    (pairs : List (Nat × Nat)) (ts : TextureState) :
    ((requireLoop desc st pairs ts).1).subresourceStates.length =
      ts.subresourceStates.length := by
  induction pairs generalizing ts with
  | nil => rfl
  | cons p rest ih =>
      obtain ⟨m, a⟩ := p
      simp only [requireLoop]
      rw [ih, requireStep_length]

lemma requireLoop_enable (desc : TextureDesc) (st : ResourceStates)
    (pairs : List (Nat × Nat)) (ts : TextureState) :
    ((requireLoop desc st pairs ts).1).enableUavBarriers = ts.enableUavBarriers := by
  induction pairs generalizing ts with
  | nil => rfl
  | cons p rest ih =>
      obtain ⟨m, a⟩ := p
      simp only [requireLoop]
      rw [ih, requireStep_enable]

lemma requireLoop_perm (desc : TextureDesc) (st : ResourceStates)
    (pairs : List (Nat × Nat)) (ts : TextureState) :
    ((requireLoop desc st pairs ts).1).permanentTransition = ts.permanentTransition := by
  induction pairs generalizing ts with
  | nil => rfl
  | cons p rest ih =>
      obtain ⟨m, a⟩ := p
      simp only [requireLoop]
      rw [ih, requireStep_perm]

lemma requireLoop_getD_notMem (desc : TextureDesc) (st : ResourceStates)
    (pairs : List (Nat × Nat)) (ts : TextureState) (j : Nat)
    (h : ∀ p ∈ pairs, subresourceIndex desc p.1 p.2 ≠ j) :
    ((requireLoop desc st pairs ts).1).subresourceStates.getD j ResourceStates.Unknown =
      ts.subresourceStates.getD j ResourceStates.Unknown := by
  induction pairs generalizing ts with
  | nil => rfl
  | cons p rest ih =>
      obtain ⟨m, a⟩ := p
      simp only [requireLoop]
      rw [ih _ (fun q hq => h q (List.mem_cons_of_mem _ hq)),
        requireStep_getD_ne _ _ _ _ (h (m, a) (List.mem_cons_self _ _))]

lemma requireLoop_getD_absorb (desc : TextureDesc) (st : ResourceStates)
    (pairs : List (Nat × Nat)) (ts : TextureState) (j : Nat)
    (h : ts.subresourceStates.getD j ResourceStates.Unknown = st) :
    ((requireLoop desc st pairs ts).1).subresourceStates.getD j ResourceStates.Unknown = st := by
  induction pairs generalizing ts with
  | nil => exact h
  | cons p rest ih =>
      obtain ⟨m, a⟩ := p
      simp only [requireLoop]
      exact ih _ (requireStep_getD_absorb _ _ _ _ h)

lemma requireLoop_getD_covered (desc : TextureDesc) (st : ResourceStates)
    (pairs : List (Nat × Nat)) (ts : TextureState) (p : Nat × Nat)
    (hp : p ∈ pairs) (hlt : subresourceIndex desc p.1 p.2 < ts.subresourceStates.length) :
    ((requireLoop desc st pairs ts).1).subresourceStates.getD
      (subresourceIndex desc p.1 p.2) ResourceStates.Unknown = st := by
  induction pairs generalizing ts with
  | nil => cases hp
  | cons q rest ih =>
      obtain ⟨m, a⟩ := q
      rcases List.mem_cons.1 hp with hq | hq
      · subst hq
        simp only [requireLoop]
        apply requireLoop_getD_absorb
        unfold requireStep
        split
        · next hs =>
            split
            · split <;> exact hs
            · exact hs
        · exact getD_set_self _ _ _ _ hlt
      · simp only [requireLoop]
        exact ih _ hq (by rw [requireStep_length]; exact hlt)

lemma requireLoop_skip (desc : TextureDesc) (st : ResourceStates)
    (pairs : List (Nat × Nat)) (ts : TextureState)
    (hall : ∀ p ∈ pairs,
      ts.subresourceStates.getD (subresourceIndex desc p.1 p.2) ResourceStates.Unknown = st)
    (hside : st ≠ ResourceStates.UnorderedAccess ∨ ts.enableUavBarriers = false ∨
      ts.firstUavBarrierPlaced = true) :
    requireLoop desc st pairs ts = (ts, []) := by
  induction pairs with
  | nil => rfl
  | cons p rest ih =>
      obtain ⟨m, a⟩ := p
      have hstep : requireStep ts (subresourceIndex desc m a) st = (ts, none) := by
        unfold requireStep
        rw [if_pos (hall (m, a) (List.mem_cons_self _ _))]
        by_cases hu : st = ResourceStates.UnorderedAccess
        · rw [if_pos hu, if_neg]
          rintro ⟨h1, h2⟩
          rcases hside with h | h | h
          · exact h hu
          · rw [h] at h1
            cases h1
          · exact h2 h
        · rw [if_neg hu]
      simp only [requireLoop, hstep]
      rw [ih (fun q hq => hall q (List.mem_cons_of_mem _ hq))]
      rfl

lemma requireLoop_allDiff (desc : TextureDesc) (st u : ResourceStates)
    (pairs : List (Nat × Nat)) (ts : TextureState)
    (hpw : pairs.Pairwise
      (fun p q => subresourceIndex desc p.1 p.2 ≠ subresourceIndex desc q.1 q.2))
    (hall : ∀ p ∈ pairs,
      ts.subresourceStates.getD (subresourceIndex desc p.1 p.2) ResourceStates.Unknown = u)
    (hne : u ≠ st) :
    (requireLoop desc st pairs ts).2 = pairs.map (fun p => (p.1, p.2, u, st)) ∧
    ((requireLoop desc st pairs ts).1).firstUavBarrierPlaced =
      (if pairs.isEmpty then ts.firstUavBarrierPlaced
       else decide (st = ResourceStates.UnorderedAccess)) := by
  induction pairs generalizing ts with
  | nil => exact ⟨rfl, rfl⟩
  | cons p rest ih =>
      obtain ⟨m, a⟩ := p
      have hstored := hall (m, a) (List.mem_cons_self _ _)
      have hstep : requireStep ts (subresourceIndex desc m a) st =
          ({ ts with subresourceStates := ts.subresourceStates.set (subresourceIndex desc m a) st,
                     firstUavBarrierPlaced := decide (st = ResourceStates.UnorderedAccess) },
           some (u, st)) := by
        unfold requireStep
        rw [if_neg (by rw [hstored]; exact hne), hstored]
      obtain ⟨hih1, hih2⟩ := ih
        { ts with subresourceStates := ts.subresourceStates.set (subresourceIndex desc m a) st,
                  firstUavBarrierPlaced := decide (st = ResourceStates.UnorderedAccess) }
        (List.pairwise_cons.1 hpw).2
        (by
          intro q hq
          show (ts.subresourceStates.set (subresourceIndex desc m a) st).getD
            (subresourceIndex desc q.1 q.2) ResourceStates.Unknown = u
          rw [getD_set_ne _ _ _ _ _ ((List.pairwise_cons.1 hpw).1 q hq)]
          exact hall q (List.mem_cons_of_mem _ hq))
      simp only [requireLoop, hstep]
      refine ⟨by rw [hih1]; rfl, ?_⟩
      rw [hih2]
      cases rest with
      | nil => rfl
      | cons q qs => rfl

lemma requireLoop_uavHazard (desc : TextureDesc)
    (p : Nat × Nat) (rest : List (Nat × Nat)) (ts : TextureState)
    (hall : ∀ q ∈ p :: rest,
      ts.subresourceStates.getD (subresourceIndex desc q.1 q.2) ResourceStates.Unknown =
        ResourceStates.UnorderedAccess)
    (henable : ts.enableUavBarriers = true)
    (hflag : ts.firstUavBarrierPlaced = false) :
    requireLoop desc ResourceStates.UnorderedAccess (p :: rest) ts =
      ({ ts with firstUavBarrierPlaced := true },
       [(p.1, p.2, ResourceStates.UnorderedAccess, ResourceStates.UnorderedAccess)]) := by
  obtain ⟨m, a⟩ := p
  have hstep : requireStep ts (subresourceIndex desc m a) ResourceStates.UnorderedAccess =
      ({ ts with firstUavBarrierPlaced := true },
       some (ResourceStates.UnorderedAccess, ResourceStates.UnorderedAccess)) := by
    unfold requireStep
    rw [if_pos (hall (m, a) (List.mem_cons_self _ _)), if_pos rfl,
      if_pos ⟨henable, by rw [hflag]; exact Bool.false_ne_true⟩]
  have hskip := requireLoop_skip desc ResourceStates.UnorderedAccess rest
    { ts with firstUavBarrierPlaced := true }
    (fun q hq => hall q (List.mem_cons_of_mem _ hq))
    (Or.inr (Or.inr rfl))
  simp only [requireLoop, hstep, hskip, List.append_nil]

/-! Lemmas about the enumerated subresource pairs. -/

lemma mem_rangePairs (sr : TextureSubresourceSet) (m a : Nat) :
    (m, a) ∈ rangePairs sr ↔
      sr.baseMipLevel ≤ m ∧ m < sr.baseMipLevel + sr.numMipLevels ∧
      sr.baseArraySlice ≤ a ∧ a < sr.baseArraySlice + sr.numArraySlices := by
  simp only [rangePairs, List.mem_product, List.mem_map, List.mem_range]
  constructor
  · rintro ⟨⟨i, hi, rfl⟩, ⟨j, hj, rfl⟩⟩
    omega
  · rintro ⟨h1, h2, h3, h4⟩
    exact ⟨⟨m - sr.baseMipLevel, by omega, by omega⟩,
      ⟨a - sr.baseArraySlice, by omega, by omega⟩⟩

lemma length_rangePairs (sr : TextureSubresourceSet) :
    (rangePairs sr).length = sr.numMipLevels * sr.numArraySlices := by
  simp [rangePairs, List.length_product]

lemma subresourceIndex_inj (desc : TextureDesc) {m1 a1 m2 a2 : Nat}
    (h1 : a1 < desc.arraySize) (h2 : a2 < desc.arraySize)
    (he : subresourceIndex desc m1 a1 = subresourceIndex desc m2 a2) :
    m1 = m2 ∧ a1 = a2 := by
  have hA : 0 < desc.arraySize := Nat.lt_of_le_of_lt (Nat.zero_le _) h1
  unfold subresourceIndex at he
  have hm : m1 = m2 := by
    have d1 : (m1 * desc.arraySize + a1) / desc.arraySize = m1 := by
      rw [Nat.mul_comm m1, Nat.mul_add_div hA, Nat.div_eq_of_lt h1, Nat.add_zero]
    have d2 : (m2 * desc.arraySize + a2) / desc.arraySize = m2 := by
      rw [Nat.mul_comm m2, Nat.mul_add_div hA, Nat.div_eq_of_lt h2, Nat.add_zero]
    rw [← d1, ← d2, he]
  refine ⟨hm, ?_⟩
  subst hm
  omega

lemma flatIndex_lt {m a M A : Nat} (hm : m < M) (ha : a < A) : m * A + a < M * A := by
  calc m * A + a < m * A + A := by omega
    _ = (m + 1) * A := by ring
    _ ≤ M * A := Nat.mul_le_mul_right A hm

lemma rangePairs_nodup (sr : TextureSubresourceSet) : (rangePairs sr).Nodup := by
  apply List.Nodup.product
  · exact (List.nodup_range _).map (fun h => by omega)
  · exact (List.nodup_range _).map (fun h => by omega)

lemma rangePairs_pairwise (desc : TextureDesc) (sr : TextureSubresourceSet)
    (hA : sr.baseArraySlice + sr.numArraySlices ≤ desc.arraySize) :
    (rangePairs sr).Pairwise
      (fun p q => subresourceIndex desc p.1 p.2 ≠ subresourceIndex desc q.1 q.2) := by
  refine (rangePairs_nodup sr).imp_of_mem ?_
  intro p q hp hq hne he
  obtain ⟨mp, ap⟩ := p
  obtain ⟨mq, aq⟩ := q
  have bp := (mem_rangePairs sr mp ap).1 hp
  have bq := (mem_rangePairs sr mq aq).1 hq
  obtain ⟨h1, h2⟩ := subresourceIndex_inj desc (by omega) (by omega) he
  apply hne
  simp only [Prod.mk.injEq]
  exact ⟨h1, h2⟩

/-! Lemmas about whole-texture requireTextureState calls on records whose
stored states are uniform. -/

lemma rangePairs_all_idx_lt (desc : TextureDesc) (L : Nat)
    (hL : L = desc.mipLevels * desc.arraySize)
    (hm32 : desc.mipLevels < 2 ^ 32) (ha32 : desc.arraySize < 2 ^ 32)
    (ha1 : 1 ≤ desc.arraySize) :
    ∀ p ∈ rangePairs (AllSubresources.resolve desc false),
      subresourceIndex desc p.1 p.2 < L := by
  intro p hp
  obtain ⟨m, a⟩ := p
  rw [resolve_allSubresources desc hm32 ha32] at hp
  have hb := (mem_rangePairs _ m a).1 hp
  simp only at hb
  subst hL
  apply flatIndex_lt
  · omega
  · rcases hb with ⟨-, -, -, h4⟩
    by_cases harr : desc.dimension.isArrayKind = true
    · rw [if_pos harr] at h4
      omega
    · rw [if_neg harr] at h4
      omega

lemma rangePairs_all_pairwise (desc : TextureDesc)
    (hm32 : desc.mipLevels < 2 ^ 32) (ha32 : desc.arraySize < 2 ^ 32)
    (ha1 : 1 ≤ desc.arraySize) :
    (rangePairs (AllSubresources.resolve desc false)).Pairwise
      (fun p q => subresourceIndex desc p.1 p.2 ≠ subresourceIndex desc q.1 q.2) := by
  apply rangePairs_pairwise
  rw [resolve_allSubresources desc hm32 ha32]
  simp only
  split <;> omega

lemma rangePairs_all_ne_nil (desc : TextureDesc)
    (hm32 : desc.mipLevels < 2 ^ 32) (ha32 : desc.arraySize < 2 ^ 32)
    (hm1 : 1 ≤ desc.mipLevels) (ha1 : 1 ≤ desc.arraySize) :
    rangePairs (AllSubresources.resolve desc false) ≠ [] := by
  intro hnil
  have := length_rangePairs (AllSubresources.resolve desc false)
  rw [hnil, resolve_allSubresources desc hm32 ha32] at this
  simp only [List.length_nil] at this
  split at this
  · have hpos := Nat.mul_pos (show 0 < desc.mipLevels by omega)
      (show 0 < desc.arraySize by omega)
    omega
  · omega

/-- A whole-texture require on a record whose stored states are uniformly
u, with u different from the desired state, emits exactly one coalesced
entire-texture record from u to the desired state. -/
lemma require_entire_uniform (texId : Nat) (desc : TextureDesc) (ts : TextureState)
    (u st : ResourceStates)
    (hm32 : desc.mipLevels < 2 ^ 32) (ha32 : desc.arraySize < 2 ^ 32)
    (hm1 : 1 ≤ desc.mipLevels) (ha1 : 1 ≤ desc.arraySize)
    (hperm : ts.permanentTransition = false)
    (hlen : ts.subresourceStates.length = desc.mipLevels * desc.arraySize)
    (huni : ∀ j, j < ts.subresourceStates.length →
      ts.subresourceStates.getD j ResourceStates.Unknown = u)
    (hne : u ≠ st) :
    requireTextureState texId desc ts AllSubresources st =
      ((requireLoop desc st (rangePairs (AllSubresources.resolve desc false)) ts).1,
       [{ textureId := texId, desc := desc, entireTexture := true, mipLevel := 0,
          arraySlice := 0, stateBefore := u, stateAfter := st }]) := by
  have hall : ∀ p ∈ rangePairs (AllSubresources.resolve desc false),
      ts.subresourceStates.getD (subresourceIndex desc p.1 p.2) ResourceStates.Unknown = u := by
    intro p hp
    exact huni _ (by rw [hlen]; exact rangePairs_all_idx_lt desc _ rfl hm32 ha32 ha1 p hp)
  obtain ⟨hems, hflag⟩ := requireLoop_allDiff desc st u _ ts
    (rangePairs_all_pairwise desc hm32 ha32 ha1) hall hne
  have htot := length_rangePairs (AllSubresources.resolve desc false)
  unfold requireTextureState
  rw [if_neg (by rw [hperm]; exact Bool.false_ne_true)]
  show ((requireLoop desc st (rangePairs (AllSubresources.resolve desc false)) ts).1,
      coalesce texId desc (AllSubresources.resolve desc false)
        (requireLoop desc st (rangePairs (AllSubresources.resolve desc false)) ts).2) = _
  rw [hems]
  cases hpl : rangePairs (AllSubresources.resolve desc false) with
  | nil => exact absurd hpl (rangePairs_all_ne_nil desc hm32 ha32 hm1 ha1)
  | cons p rest =>
      obtain ⟨m0, a0⟩ := p
      rw [hpl] at htot
      congr 1
      rw [List.map_cons]
      simp only [coalesce]
      rw [if_pos]
      refine ⟨?_, ?_, ?_⟩
      · simp only [List.length_cons, List.length_map]
        simpa using htot
      · rw [resolve_allSubresources desc hm32 ha32]
        exact isEntireTexture_expansion desc hm32 ha32
      · rw [List.all_eq_true]
        intro e he
        rcases List.mem_cons.1 he with rfl | he
        · simp
        · obtain ⟨q, hq, rfl⟩ := List.mem_map.1 he
          simp

/-- A whole-texture require on a record whose stored states are uniformly
the desired state emits nothing when the state is not UnorderedAccess, or
when UAV barriers are disabled, or when the first UAV barrier was already
placed. -/
lemma require_entire_uniform_skip (texId : Nat) (desc : TextureDesc) (ts : TextureState)
    (st : ResourceStates)
    (hperm : ts.permanentTransition = false)
    (hall : ∀ p ∈ rangePairs (AllSubresources.resolve desc false),
      ts.subresourceStates.getD (subresourceIndex desc p.1 p.2) ResourceStates.Unknown = st)
    (hside : st ≠ ResourceStates.UnorderedAccess ∨ ts.enableUavBarriers = false ∨
      ts.firstUavBarrierPlaced = true) :
    requireTextureState texId desc ts AllSubresources st = (ts, []) := by
  have hskip := requireLoop_skip desc st _ ts hall hside
  unfold requireTextureState
  rw [if_neg (by rw [hperm]; exact Bool.false_ne_true)]
  show ((requireLoop desc st (rangePairs (AllSubresources.resolve desc false)) ts).1,
      coalesce texId desc (AllSubresources.resolve desc false)
        (requireLoop desc st (rangePairs (AllSubresources.resolve desc false)) ts).2) = _
  rw [hskip]
  simp only [coalesce]

/-- A whole-texture require for UnorderedAccess on a record whose stored
states are uniformly UnorderedAccess, with UAV barriers enabled and the
first-UAV flag clear, emits exactly one same-state hazard record and sets
the flag. -/
lemma require_entire_uniform_uavHazard (texId : Nat) (desc : TextureDesc) (ts : TextureState)
    (hm32 : desc.mipLevels < 2 ^ 32) (ha32 : desc.arraySize < 2 ^ 32)
    (hm1 : 1 ≤ desc.mipLevels) (ha1 : 1 ≤ desc.arraySize)
    (hperm : ts.permanentTransition = false)
    (hall : ∀ p ∈ rangePairs (AllSubresources.resolve desc false),
      ts.subresourceStates.getD (subresourceIndex desc p.1 p.2) ResourceStates.Unknown =
        ResourceStates.UnorderedAccess)
    (henable : ts.enableUavBarriers = true)
    (hflag : ts.firstUavBarrierPlaced = false) :
    (requireTextureState texId desc ts AllSubresources
        ResourceStates.UnorderedAccess).1 = { ts with firstUavBarrierPlaced := true } ∧
    (requireTextureState texId desc ts AllSubresources
        ResourceStates.UnorderedAccess).2.length = 1 ∧
    ∀ b ∈ (requireTextureState texId desc ts AllSubresources
        ResourceStates.UnorderedAccess).2,
      b.stateBefore = ResourceStates.UnorderedAccess ∧
      b.stateAfter = ResourceStates.UnorderedAccess := by
  have hmain : requireTextureState texId desc ts AllSubresources
      ResourceStates.UnorderedAccess =
      ({ ts with firstUavBarrierPlaced := true },
       coalesce texId desc (AllSubresources.resolve desc false)
        (requireLoop desc ResourceStates.UnorderedAccess
          (rangePairs (AllSubresources.resolve desc false)) ts).2) := by
    unfold requireTextureState
    rw [if_neg (by rw [hperm]; exact Bool.false_ne_true)]
    show ((requireLoop desc ResourceStates.UnorderedAccess
        (rangePairs (AllSubresources.resolve desc false)) ts).1,
        coalesce texId desc (AllSubresources.resolve desc false)
          (requireLoop desc ResourceStates.UnorderedAccess
            (rangePairs (AllSubresources.resolve desc false)) ts).2) = _
    cases hpl : rangePairs (AllSubresources.resolve desc false) with
    | nil => exact absurd hpl (rangePairs_all_ne_nil desc hm32 ha32 hm1 ha1)
    | cons p rest =>
        rw [requireLoop_uavHazard desc p rest ts (by rw [hpl] at hall; exact hall)
          henable hflag]
  cases hpl : rangePairs (AllSubresources.resolve desc false) with
  | nil => exact absurd hpl (rangePairs_all_ne_nil desc hm32 ha32 hm1 ha1)
  | cons p rest =>
      rw [hpl] at hmain
      rw [requireLoop_uavHazard desc p rest ts (by rw [hpl] at hall; exact hall)
        henable hflag] at hmain
      obtain ⟨m0, a0⟩ := p
      rw [hmain]
      simp only [coalesce]
      refine ⟨?_, ?_, ?_⟩
      · first
        | rfl
        | trivial
      · split <;> rfl
      · split
        · intro b hb
          rcases List.mem_singleton.1 hb with rfl
          simp
        · intro b hb
          simp only [List.map_cons, List.map_nil] at hb
          rcases List.mem_singleton.1 hb with rfl
          simp

/-! The commit protocol characterized in closed form. -/

/-- commitBarriers in closed form: a no-op on empty pending lists;
otherwise it ends an active render pass, submits one batched native call
per nonempty barrier category with exactly one translated description per
pending record, and clears both pending lists. -/
lemma commitBarriers_eq (cs : CmdState) :
    commitBarriers cs =
      if cs.bufferBarriers.isEmpty ∧ cs.textureBarriers.isEmpty then cs
      else
        { textureBarriers := [], bufferBarriers := [], renderPassActive := false,
          enableAutomaticBarriers := cs.enableAutomaticBarriers,
          commands := cs.commands
            ++ (if cs.renderPassActive then [NativeCmd.renderPassEnd] else [])
            ++ (if cs.textureBarriers.isEmpty then []
                else [NativeCmd.imageBarrierBatch
                  (cs.textureBarriers.map translateTextureBarrier)])
            ++ (if cs.bufferBarriers.isEmpty then []
                else [NativeCmd.bufferBarrierBatch
                  (cs.bufferBarriers.map translateBufferBarrier)]) } := by
  obtain ⟨tb, bb, rp, en, cmds⟩ := cs
  cases tb <;> cases bb <;> cases rp <;>
    simp [commitBarriers, commitBarriersInternal, endRenderPass]

/-- The pending lists are empty after every commit. -/
lemma commitBarriers_clears (cs : CmdState) :
    (commitBarriers cs).textureBarriers = [] ∧ (commitBarriers cs).bufferBarriers = [] := by
  rw [commitBarriers_eq]
  split
  · next h =>
      obtain ⟨h1, h2⟩ := h
      exact ⟨List.isEmpty_iff.1 h2, List.isEmpty_iff.1 h1⟩
  · exact ⟨rfl, rfl⟩

/-- The commands appended by a commit are barrier submissions and
render-pass bookkeeping only; no copy command, and the automatic-barriers
switch is untouched. -/
lemma commitBarriers_flush (cs : CmdState) :
    (commitBarriers cs).enableAutomaticBarriers = cs.enableAutomaticBarriers ∧
    ∃ flush, (commitBarriers cs).commands = cs.commands ++ flush ∧
      ∀ c ∈ flush, c.isCopyCmd = false := by
  rw [commitBarriers_eq]
  split
  · exact ⟨rfl, [], by simp⟩
  · refine ⟨rfl, (if cs.renderPassActive then [NativeCmd.renderPassEnd] else [])
      ++ (if cs.textureBarriers.isEmpty then []
          else [NativeCmd.imageBarrierBatch (cs.textureBarriers.map translateTextureBarrier)])
      ++ (if cs.bufferBarriers.isEmpty then []
          else [NativeCmd.bufferBarrierBatch (cs.bufferBarriers.map translateBufferBarrier)]),
      by simp, ?_⟩
    intro c hc
    simp only [List.mem_append] at hc
    rcases hc with (hc | hc) | hc <;> split at hc <;>
      simp_all [NativeCmd.isCopyCmd]

/-! Claim C3. -/

/-- Counterexample to the "single batched call" part of claim C3: with one
pending texture record and one pending buffer record, commitBarriers
records two batched native barrier calls, not one. -/
theorem claimC3_counterexample :
    ((commitBarriers exCmdStateBoth).commands.countP (fun c => c.isBarrierBatch)) = 2 ∧
    ¬(((commitBarriers exCmdStateBoth).commands.countP (fun c => c.isBarrierBatch)) = 1) := by
  decide

/-- Claim C3 amended: commitBarriers is a no-op when both pending lists
are empty; otherwise it first ends any active render pass, translates
every pending record into exactly one native barrier description, submits
them as a single batched call per barrier category (one call for all
texture records and one for all buffer records), and leaves both pending
lists empty — each list is cleared exactly once and no record is
translated twice, as the commands equation shows each pending list mapped
exactly once. -/
theorem claimC3_commitBarriers (cs : CmdState) :
    commitBarriers cs =
      if cs.bufferBarriers.isEmpty ∧ cs.textureBarriers.isEmpty then cs
      else
        { textureBarriers := [], bufferBarriers := [], renderPassActive := false,
          enableAutomaticBarriers := cs.enableAutomaticBarriers,
          commands := cs.commands
            ++ (if cs.renderPassActive then [NativeCmd.renderPassEnd] else [])
            ++ (if cs.textureBarriers.isEmpty then []
                else [NativeCmd.imageBarrierBatch
                  (cs.textureBarriers.map translateTextureBarrier)])
            ++ (if cs.bufferBarriers.isEmpty then []
                else [NativeCmd.bufferBarrierBatch
                  (cs.bufferBarriers.map translateBufferBarrier)]) } :=
  commitBarriers_eq cs

/-! Claim C1. -/

/-- Counterexample to claim C1: a non-bindless binding set with UAV
bindings, bound identically in the previous call, with the dirty flag
clear — the diff mask is zero and the insert call submits nothing at all,
so the UAV binding set is not re-evaluated. -/
theorem claimC1_counterexample :
    insertResourceBarriersForBindingSets false
      [{ id := 7, isBindless := false, hasUavBindings := true }]
      [{ id := 7, isBindless := false, hasUavBindings := true }] = [] := by
  decide

/-- Claim C1 amended: a binding set containing a UAV binding is
re-submitted through setResourceStatesForBindingSet whenever the overall
binding-update mask is nonzero (the dirty flag is set or at least one
binding slot changed), even if that particular slot is unchanged; but when
the dirty flag is clear and the diff mask is zero, the insert call submits
no binding set at all, including UAV ones. -/
theorem claimC1_uavBindingSets (dirty : Bool) (newB oldB : List BindingSetModel) :
    ((dirty = true ∨ arrayDifferenceMask newB oldB ≠ 0) →
      ∀ bs ∈ newB, bs.isBindless = false → bs.hasUavBindings = true →
        bs ∈ insertResourceBarriersForBindingSets dirty newB oldB) ∧
    (dirty = false → arrayDifferenceMask newB oldB = 0 →
      insertResourceBarriersForBindingSets dirty newB oldB = []) := by
  constructor
  · intro hmask bs hbs hnb huav
    have hm : (if (if dirty = true then 2 ^ 32 - 1 else 0) = 0
        then arrayDifferenceMask newB oldB else (if dirty = true then 2 ^ 32 - 1 else 0)) ≠ 0 := by
      cases dirty with
      | true => simp
      | false =>
          simp only [Bool.false_eq_true, if_false, if_pos rfl]
          rcases hmask with h | h
          · cases h
          · exact h
    unfold insertResourceBarriersForBindingSets
    rw [if_pos hm]
    obtain ⟨i, hlt, hget⟩ : ∃ i, ∃ h : i < newB.length, newB.get ⟨i, h⟩ = bs := by
      obtain ⟨n, hn⟩ := List.mem_iff_get.1 hbs
      exact ⟨n.1, n.2, hn⟩
    apply List.mem_filterMap.2
    refine ⟨i, List.mem_range.2 hlt, ?_⟩
    rw [List.get?_eq_get hlt, hget]
    simp only [hnb, Bool.false_eq_true, if_false]
    rw [if_pos (Or.inr huav)]
  · intro hd hdiff
    subst hd
    unfold insertResourceBarriersForBindingSets
    simp [hdiff]

/-! Claim C10. -/

/-- Claim C10: for every BufferDesc d and BufferRange r (uint64 fields,
hence below 2^64), the resolved range lies within the buffer:
byteOffset is at most d.byteSize, byteOffset + byteSize is at most
d.byteSize, and when r.byteSize = 0 the resolved byteSize is exactly the
remainder d.byteSize - byteOffset. -/
theorem claimC10_bufferRange_resolve_inBounds (r : BufferRange) (d : BufferDesc)
    (hd : d.byteSize < 2 ^ 64) :
    (r.resolve d).byteOffset ≤ d.byteSize ∧
    (r.resolve d).byteOffset + (r.resolve d).byteSize ≤ d.byteSize ∧
    (r.byteSize = 0 → (r.resolve d).byteSize = d.byteSize - (r.resolve d).byteOffset) := by
  unfold BufferRange.resolve
  split <;> simp only <;> omega

/-- Witness for claim C10 at the concrete range (offset 5, size 0) in a
12-byte buffer. -/
theorem claimC10_witness :
    ({ byteSize := 12, isVolatile := false } : BufferDesc).byteSize < 2 ^ 64 ∧
    (BufferRange.resolve { byteOffset := 5, byteSize := 0 }
        { byteSize := 12, isVolatile := false }).byteOffset ≤ 12 ∧
    (BufferRange.resolve { byteOffset := 5, byteSize := 0 }
        { byteSize := 12, isVolatile := false }).byteOffset +
      (BufferRange.resolve { byteOffset := 5, byteSize := 0 }
        { byteSize := 12, isVolatile := false }).byteSize ≤ 12 := by
  have h := claimC10_bufferRange_resolve_inBounds
    { byteOffset := 5, byteSize := 0 } { byteSize := 12, isVolatile := false } (by decide)
  exact ⟨by decide, h.1, h.2.1⟩

/-! Claim C9. -/

/-- Counterexample to claim C9 as stated: the texture has 4 mip levels and
the set starts at mip 1 with the AllMipLevels wildcard extent, so
baseMipLevel < mipLevels holds, yet the uint32 addition
baseMipLevel + numMipLevels wraps during resolve and the resolved extent
is 2^32 - 1, far beyond the 4 mip levels of the descriptor. -/
theorem claimC9_counterexample :
    (({ baseMipLevel := 1, numMipLevels := AllMipLevels, baseArraySlice := 0,
        numArraySlices := 1 } : TextureSubresourceSet).baseMipLevel <
      ({ mipLevels := 4, arraySize := 1, dimension := TextureDimension.Texture2D }
        : TextureDesc).mipLevels) ∧
    ¬((({ baseMipLevel := 1, numMipLevels := AllMipLevels, baseArraySlice := 0,
          numArraySlices := 1 } : TextureSubresourceSet).resolve
        { mipLevels := 4, arraySize := 1, dimension := TextureDimension.Texture2D }
        false).baseMipLevel +
      (({ baseMipLevel := 1, numMipLevels := AllMipLevels, baseArraySlice := 0,
          numArraySlices := 1 } : TextureSubresourceSet).resolve
        { mipLevels := 4, arraySize := 1, dimension := TextureDimension.Texture2D }
        false).numMipLevels ≤ 4) := by
  constructor
  · decide
  · intro h
    revert h
    decide

/-- Claim C9 amended: the containment holds once the uint32 additions
baseMipLevel + numMipLevels and baseArraySlice + numArraySlices do not
wrap (each below 2^32), the descriptor extents fit uint32, and the
descriptor has at least one array slice.  Then the resolved set lies
within bounds, and non-array dimensions resolve to baseArraySlice = 0 and
numArraySlices = 1. -/
theorem claimC9_resolve_inBounds (d : TextureDesc) (s : TextureSubresourceSet)
    (hm32 : d.mipLevels < 2 ^ 32) (ha32 : d.arraySize < 2 ^ 32)
    (hnw1 : s.baseMipLevel + s.numMipLevels < 2 ^ 32)
    (hnw2 : s.baseArraySlice + s.numArraySlices < 2 ^ 32)
    (ha1 : 1 ≤ d.arraySize)
    (hb : s.baseMipLevel < d.mipLevels)
    (hba : d.dimension.isArrayKind = true → s.baseArraySlice < d.arraySize) :
    (s.resolve d false).baseMipLevel + (s.resolve d false).numMipLevels ≤ d.mipLevels ∧
    (s.resolve d false).baseArraySlice + (s.resolve d false).numArraySlices ≤ d.arraySize ∧
    (d.dimension.isArrayKind = false →
      (s.resolve d false).baseArraySlice = 0 ∧ (s.resolve d false).numArraySlices = 1) := by
  unfold TextureSubresourceSet.resolve
  simp only [Bool.false_eq_true, if_false]
  split
  · next harr =>
      have hba2 := hba harr
      dsimp only
      refine ⟨by omega, by omega, fun hc => ?_⟩
      simp [harr] at hc
  · next harr =>
      dsimp only
      exact ⟨by omega, by omega, fun _ => ⟨rfl, rfl⟩⟩

/-- Witness for the amended claim C9 at a 4-mip, 2-slice texture array and
the subresource set covering mips 1-3 of slice 1. -/
theorem claimC9_witness :
    (({ baseMipLevel := 1, numMipLevels := 3, baseArraySlice := 1, numArraySlices := 1 }
        : TextureSubresourceSet).resolve
      { mipLevels := 4, arraySize := 2, dimension := TextureDimension.Texture2DArray }
      false).baseMipLevel +
    (({ baseMipLevel := 1, numMipLevels := 3, baseArraySlice := 1, numArraySlices := 1 }
        : TextureSubresourceSet).resolve
      { mipLevels := 4, arraySize := 2, dimension := TextureDimension.Texture2DArray }
      false).numMipLevels ≤ 4 := by
  exact (claimC9_resolve_inBounds
    { mipLevels := 4, arraySize := 2, dimension := TextureDimension.Texture2DArray }
    { baseMipLevel := 1, numMipLevels := 3, baseArraySlice := 1, numArraySlices := 1 }
    (by decide) (by decide) (by decide) (by decide) (by decide) (by decide)
    (fun _ => by decide)).1

/-! More helper lemmas about the tracker operations. -/

lemma requireTextureState_fst (texId : Nat) (desc : TextureDesc) (ts : TextureState)
    (sub : TextureSubresourceSet) (st : ResourceStates)
    (hperm : ts.permanentTransition = false) :
    (requireTextureState texId desc ts sub st).1 =
      (requireLoop desc st (rangePairs (sub.resolve desc false)) ts).1 := by
  unfold requireTextureState
  rw [if_neg (by rw [hperm]; exact Bool.false_ne_true)]

lemma requireTextureState_permanent (texId : Nat) (desc : TextureDesc) (ts : TextureState)
    (sub : TextureSubresourceSet) (st : ResourceStates)
    (hperm : ts.permanentTransition = true) :
    requireTextureState texId desc ts sub st = (ts, []) := by
  unfold requireTextureState
  rw [if_pos hperm]

lemma requireBufferState_state_eq (bufId : Nat) (bdesc : BufferDesc) (bs : BufferState)
    (st : ResourceStates) (hperm : bs.permanentTransition = false) :
    ((requireBufferState bufId bdesc bs st).1).state = st := by
  unfold requireBufferState
  rw [if_neg (by rw [hperm]; exact Bool.false_ne_true)]
  split
  · next heq =>
      split
      · exact heq
      · exact heq
  · rfl

lemma requireBufferState_permanent (bufId : Nat) (bdesc : BufferDesc) (bs : BufferState)
    (st : ResourceStates) (hperm : bs.permanentTransition = true) :
    requireBufferState bufId bdesc bs st = (bs, []) := by
  unfold requireBufferState
  rw [if_pos hperm]

/-! Claim C2. -/

/-- Counterexample to claim C2 as stated ("for every texture t"): a
texture pinned to CopySource by setPermanentTextureState has a stored
state different from the requested ShaderResource, yet the first
requireTextureState appends zero transitions, not one, because pinned
records are silently skipped. -/
theorem claimC2_counterexample :
    getTextureSubresourceState exDesc1 exPinned 0 0 ≠ ResourceStates.ShaderResource ∧
    (requireTextureState 0 exDesc1 exPinned AllSubresources
      ResourceStates.ShaderResource).2.length = 0 := by
  decide

/-- Claim C2 amended: restricted to textures not pinned by
setPermanentTextureState (permanentTransition = false), with the stored
states uniformly u.  The first whole-texture require with u different from
S appends exactly one transition; an immediately repeated identical call
appends nothing when S is not UnorderedAccess, and also appends nothing
when S is UnorderedAccess because the first call left
firstUavBarrierPlaced = true; on a record already uniformly in
UnorderedAccess, a require for UnorderedAccess appends exactly one
same-state hazard record and sets the flag when enableUavBarriers holds
and the flag was clear, and appends nothing otherwise. -/
theorem claimC2_idempotence (texId : Nat) (desc : TextureDesc) (ts : TextureState)
    (u S : ResourceStates)
    (hm32 : desc.mipLevels < 2 ^ 32) (ha32 : desc.arraySize < 2 ^ 32)
    (hm1 : 1 ≤ desc.mipLevels) (ha1 : 1 ≤ desc.arraySize)
    (hperm : ts.permanentTransition = false)
    (hlen : ts.subresourceStates.length = desc.mipLevels * desc.arraySize)
    (huni : ∀ j, j < ts.subresourceStates.length →
      ts.subresourceStates.getD j ResourceStates.Unknown = u) :
    (u ≠ S → (requireTextureState texId desc ts AllSubresources S).2 =
      [{ textureId := texId, desc := desc, entireTexture := true, mipLevel := 0,
         arraySlice := 0, stateBefore := u, stateAfter := S }]) ∧
    (u ≠ S → S ≠ ResourceStates.UnorderedAccess →
      (requireTextureState texId desc
        (requireTextureState texId desc ts AllSubresources S).1 AllSubresources S).2 = []) ∧
    (u ≠ S → S = ResourceStates.UnorderedAccess →
      ((requireTextureState texId desc ts AllSubresources S).1).firstUavBarrierPlaced = true ∧
      (requireTextureState texId desc
        (requireTextureState texId desc ts AllSubresources S).1 AllSubresources S).2 = []) ∧
    (u = S → S = ResourceStates.UnorderedAccess → ts.enableUavBarriers = true →
      ts.firstUavBarrierPlaced = false →
      (requireTextureState texId desc ts AllSubresources S).2.length = 1 ∧
      (∀ b ∈ (requireTextureState texId desc ts AllSubresources S).2,
        b.stateBefore = ResourceStates.UnorderedAccess ∧
        b.stateAfter = ResourceStates.UnorderedAccess) ∧
      ((requireTextureState texId desc ts AllSubresources S).1).firstUavBarrierPlaced = true) ∧
    (u = S → S = ResourceStates.UnorderedAccess →
      (ts.enableUavBarriers = false ∨ ts.firstUavBarrierPlaced = true) →
      requireTextureState texId desc ts AllSubresources S = (ts, [])) ∧
    (u = S → S ≠ ResourceStates.UnorderedAccess →
      requireTextureState texId desc ts AllSubresources S = (ts, [])) := by
  have hallu : ∀ p ∈ rangePairs (AllSubresources.resolve desc false),
      ts.subresourceStates.getD (subresourceIndex desc p.1 p.2) ResourceStates.Unknown = u :=
    fun p hp => huni _ (by rw [hlen]; exact rangePairs_all_idx_lt desc _ rfl hm32 ha32 ha1 p hp)
  have hidx : ∀ p ∈ rangePairs (AllSubresources.resolve desc false),
      subresourceIndex desc p.1 p.2 < ts.subresourceStates.length :=
    fun p hp => by rw [hlen]; exact rangePairs_all_idx_lt desc _ rfl hm32 ha32 ha1 p hp
  have hfst : (requireTextureState texId desc ts AllSubresources S).1 =
      (requireLoop desc S (rangePairs (AllSubresources.resolve desc false)) ts).1 :=
    requireTextureState_fst texId desc ts AllSubresources S hperm
  have hperm1 : ((requireTextureState texId desc ts AllSubresources S).1).permanentTransition =
      false := by rw [hfst, requireLoop_perm, hperm]
  have hall1 : ∀ p ∈ rangePairs (AllSubresources.resolve desc false),
      ((requireTextureState texId desc ts AllSubresources S).1).subresourceStates.getD
        (subresourceIndex desc p.1 p.2) ResourceStates.Unknown = S := by
    intro p hp
    rw [hfst]
    exact requireLoop_getD_covered desc S _ ts p hp (hidx p hp)
  refine ⟨?_, ?_, ?_, ?_, ?_, ?_⟩
  · intro hne
    rw [require_entire_uniform texId desc ts u S hm32 ha32 hm1 ha1 hperm hlen huni hne]
  · intro hne hSne
    rw [require_entire_uniform_skip texId desc _ S hperm1 hall1 (Or.inl hSne)]
  · intro hne hS
    obtain ⟨hems, hflag⟩ := requireLoop_allDiff desc S u _ ts
      (rangePairs_all_pairwise desc hm32 ha32 ha1) hallu hne
    have hflag1 : ((requireTextureState texId desc ts AllSubresources S).1).firstUavBarrierPlaced
        = true := by
      rw [hfst, hflag]
      cases hpl : rangePairs (AllSubresources.resolve desc false) with
      | nil => exact absurd hpl (rangePairs_all_ne_nil desc hm32 ha32 hm1 ha1)
      | cons p rest => simp [hS]
    refine ⟨hflag1, ?_⟩
    rw [require_entire_uniform_skip texId desc _ S hperm1 hall1 (Or.inr (Or.inr hflag1))]
  · intro hu hS henable hflag
    subst hS
    obtain ⟨h1, h2, h3⟩ := require_entire_uniform_uavHazard texId desc ts hm32 ha32 hm1 ha1
      hperm (fun p hp => by rw [← hu]; exact hallu p hp) henable hflag
    exact ⟨h2, h3, by rw [h1]⟩
  · intro hu hS hside
    exact require_entire_uniform_skip texId desc ts S hperm
      (fun p hp => by rw [← hu]; exact hallu p hp) (Or.inr hside)
  · intro hu hSne
    exact require_entire_uniform_skip texId desc ts S hperm
      (fun p hp => by rw [← hu]; exact hallu p hp) (Or.inl hSne)

/-- Witness for the amended claim C2: a fresh 1-subresource texture in
Unknown, required into ShaderResource, appends exactly the one coalesced
whole-texture transition record. -/
theorem claimC2_witness :
    (requireTextureState 0 exDesc1 (TextureState.create 1) AllSubresources
      ResourceStates.ShaderResource).2 =
      [{ textureId := 0, desc := exDesc1, entireTexture := true, mipLevel := 0,
         arraySlice := 0, stateBefore := ResourceStates.Unknown,
         stateAfter := ResourceStates.ShaderResource }] := by
  exact (claimC2_idempotence 0 exDesc1 (TextureState.create 1) ResourceStates.Unknown
    ResourceStates.ShaderResource (by decide) (by decide) (by decide) (by decide) rfl
    (by decide)
    (fun j hj => by
      have hj0 : j = 0 := by
        simp only [TextureState.create, List.length_replicate] at hj
        omega
      subst hj0
      rfl)).1 (by decide)

/-! Claim C6. -/

/-- Counterexample to claim C6 as stated: on the 4-mip texture entirely in
ShaderResource, requiring UnorderedAccess over mips 0-1 yields two
transition records, not one, because the pending record representation
(consumed by commitBarriersInternal) only admits entire-texture or
single-subresource ranges and the resolved range is not the entire
texture. -/
theorem claimC6_counterexample :
    (requireTextureState 0 exDesc4 exTsShaderResource4 exSubMips01
      ResourceStates.UnorderedAccess).2.length = 2 ∧
    ¬((requireTextureState 0 exDesc4 exTsShaderResource4 exSubMips01
      ResourceStates.UnorderedAccess).2.length = 1) := by
  decide

/-- Claim C6 amended: coalescing applies when the whole resolved range
shares the same pair and that range is the entire texture — a
whole-texture require on a uniform non-pinned record yields exactly one
entire-texture record; a proper subrange is emitted one record per
subresource: in the 4-mip scenario the require over mips 0-1 yields
exactly the two single-subresource records for mips 0 and 1, while mips
2-3 remain ShaderResource. -/
theorem claimC6_coalescing (texId : Nat) (desc : TextureDesc) (ts : TextureState)
    (u S : ResourceStates)
    (hm32 : desc.mipLevels < 2 ^ 32) (ha32 : desc.arraySize < 2 ^ 32)
    (hm1 : 1 ≤ desc.mipLevels) (ha1 : 1 ≤ desc.arraySize)
    (hperm : ts.permanentTransition = false)
    (hlen : ts.subresourceStates.length = desc.mipLevels * desc.arraySize)
    (huni : ∀ j, j < ts.subresourceStates.length →
      ts.subresourceStates.getD j ResourceStates.Unknown = u)
    (hne : u ≠ S) :
    (requireTextureState texId desc ts AllSubresources S).2 =
      [{ textureId := texId, desc := desc, entireTexture := true, mipLevel := 0,
         arraySlice := 0, stateBefore := u, stateAfter := S }] ∧
    (requireTextureState 0 exDesc4 exTsShaderResource4 exSubMips01
      ResourceStates.UnorderedAccess).2 = [exUavRecordMip0, exUavRecordMip1] ∧
    getTextureSubresourceState exDesc4
      (requireTextureState 0 exDesc4 exTsShaderResource4 exSubMips01
        ResourceStates.UnorderedAccess).1 0 2 = ResourceStates.ShaderResource ∧
    getTextureSubresourceState exDesc4
      (requireTextureState 0 exDesc4 exTsShaderResource4 exSubMips01
        ResourceStates.UnorderedAccess).1 0 3 = ResourceStates.ShaderResource := by
  refine ⟨?_, by decide, by decide, by decide⟩
  rw [require_entire_uniform texId desc ts u S hm32 ha32 hm1 ha1 hperm hlen huni hne]

/-- Witness for the amended claim C6 at a fresh 1-subresource texture. -/
theorem claimC6_witness :
    (requireTextureState 3 exDesc1 (TextureState.create 1) AllSubresources
      ResourceStates.CopyDest).2 =
      [{ textureId := 3, desc := exDesc1, entireTexture := true, mipLevel := 0,
         arraySlice := 0, stateBefore := ResourceStates.Unknown,
         stateAfter := ResourceStates.CopyDest }] := by
  exact (claimC6_coalescing 3 exDesc1 (TextureState.create 1) ResourceStates.Unknown
    ResourceStates.CopyDest (by decide) (by decide) (by decide) (by decide) rfl
    (by decide)
    (fun j hj => by
      have hj0 : j = 0 := by
        simp only [TextureState.create, List.length_replicate] at hj
        omega
      subst hj0
      rfl)
    (by decide)).1

/-! Claim C4. -/

/-- Counterexample to claim C4 as stated ("for every texture t"): a
texture pinned to CopySource keeps CopySource after a whole-texture
require for ShaderResource, so getTextureSubresourceState does not return
the requested state. -/
theorem claimC4_counterexample :
    getTextureSubresourceState exDesc1
      (requireTextureState 0 exDesc1 exPinned AllSubresources
        ResourceStates.ShaderResource).1 0 0 = ResourceStates.CopySource ∧
    ResourceStates.CopySource ≠ ResourceStates.ShaderResource := by
  decide

/-- Claim C4 amended: restricted to textures not pinned by
setPermanentTextureState.  After requireTextureState(t, R, S), for every
(slice, mip) inside the resolved range getTextureSubresourceState returns
S, and every in-bounds subresource outside the resolved range keeps its
previous stored state; the subsequent commitBarriers flushes the appended
records and leaves both pending lists empty (it does not touch the stored
per-resource states, which live in the resource record). -/
theorem claimC4_coverage (texId : Nat) (desc : TextureDesc) (ts : TextureState)
    (R : TextureSubresourceSet) (S : ResourceStates) (cs : CmdState) (slice mip : Nat)
    (hperm : ts.permanentTransition = false)
    (hlen : ts.subresourceStates.length = desc.mipLevels * desc.arraySize)
    (hmips : (R.resolve desc false).baseMipLevel + (R.resolve desc false).numMipLevels ≤
      desc.mipLevels)
    (hslices : (R.resolve desc false).baseArraySlice + (R.resolve desc false).numArraySlices ≤
      desc.arraySize) :
    ((R.resolve desc false).baseMipLevel ≤ mip ∧
     mip < (R.resolve desc false).baseMipLevel + (R.resolve desc false).numMipLevels ∧
     (R.resolve desc false).baseArraySlice ≤ slice ∧
     slice < (R.resolve desc false).baseArraySlice + (R.resolve desc false).numArraySlices →
      getTextureSubresourceState desc (requireTextureState texId desc ts R S).1 slice mip = S) ∧
    (mip < desc.mipLevels → slice < desc.arraySize →
     ¬((R.resolve desc false).baseMipLevel ≤ mip ∧
       mip < (R.resolve desc false).baseMipLevel + (R.resolve desc false).numMipLevels ∧
       (R.resolve desc false).baseArraySlice ≤ slice ∧
       slice < (R.resolve desc false).baseArraySlice + (R.resolve desc false).numArraySlices) →
      getTextureSubresourceState desc (requireTextureState texId desc ts R S).1 slice mip =
        getTextureSubresourceState desc ts slice mip) ∧
    ((commitBarriers { cs with textureBarriers :=
        cs.textureBarriers ++ (requireTextureState texId desc ts R S).2 }).textureBarriers = []
     ∧
     (commitBarriers { cs with textureBarriers :=
        cs.textureBarriers ++ (requireTextureState texId desc ts R S).2 }).bufferBarriers = [])
    := by
  have hfst := requireTextureState_fst texId desc ts R S hperm
  refine ⟨?_, ?_, commitBarriers_clears _⟩
  · rintro ⟨h1, h2, h3, h4⟩
    unfold getTextureSubresourceState
    rw [hfst]
    apply requireLoop_getD_covered desc S _ ts (mip, slice)
    · exact (mem_rangePairs _ mip slice).2 ⟨h1, h2, h3, h4⟩
    · rw [hlen]
      exact flatIndex_lt (by omega) (by omega)
  · intro hmip hslice houtside
    unfold getTextureSubresourceState
    rw [hfst]
    apply requireLoop_getD_notMem
    intro p hp heq
    obtain ⟨mp, ap⟩ := p
    have hb := (mem_rangePairs _ mp ap).1 hp
    obtain ⟨he1, he2⟩ := subresourceIndex_inj desc (by omega) (by omega) heq
    exact houtside (by constructor <;> omega)

/-- Witness for the amended claim C4: on a fresh 4-mip texture, requiring
CopyDest over mips 0-1 makes mip 1 read back CopyDest. -/
theorem claimC4_witness :
    getTextureSubresourceState exDesc4
      (requireTextureState 0 exDesc4 (TextureState.create 4) exSubMips01
        ResourceStates.CopyDest).1 0 1 = ResourceStates.CopyDest := by
  exact (claimC4_coverage 0 exDesc4 (TextureState.create 4) exSubMips01
    ResourceStates.CopyDest exCmdStateBoth 0 1 rfl (by decide) (by decide)
    (by decide)).1 (by decide)

/-! Claim C5. -/

/-- Claim C5: once setPermanentTextureState (or setPermanentBufferState)
has pinned a resource to P, any requireTextureState/requireBufferState
with any state Q is a silent no-op: the call returns the record unchanged
with no appended transition, the stored state observed through
getTextureSubresourceState/getBufferState remains P, and the model emits
no diagnostic (the skip produces no output at all). -/
theorem claimC5_pinning (texId : Nat) (desc : TextureDesc) (ts : TextureState)
    (P Q Pb Qb : ResourceStates) (sub : TextureSubresourceSet) (slice mip : Nat)
    (bufId : Nat) (bdesc : BufferDesc) (bs : BufferState)
    (hm32 : desc.mipLevels < 2 ^ 32) (ha32 : desc.arraySize < 2 ^ 32)
    (ha1 : 1 ≤ desc.arraySize)
    (hperm : ts.permanentTransition = false)
    (hlen : ts.subresourceStates.length = desc.mipLevels * desc.arraySize)
    (hQP : Q ≠ P) (hQbPb : Qb ≠ Pb)
    (hbperm : bs.permanentTransition = false)
    (hmip : mip < desc.mipLevels)
    (hslice : slice < (if desc.dimension.isArrayKind then desc.arraySize else 1)) :
    requireTextureState texId desc (setPermanentTextureState texId desc ts P).1 sub Q =
      ((setPermanentTextureState texId desc ts P).1, []) ∧
    getTextureSubresourceState desc (setPermanentTextureState texId desc ts P).1 slice mip
      = P ∧
    getTextureSubresourceState desc
      (requireTextureState texId desc (setPermanentTextureState texId desc ts P).1 sub Q).1
      slice mip = P ∧
    requireBufferState bufId bdesc (setPermanentBufferState bufId bdesc bs Pb).1 Qb =
      ((setPermanentBufferState bufId bdesc bs Pb).1, []) ∧
    getBufferState (setPermanentBufferState bufId bdesc bs Pb).1 = Pb := by
  have hpermP : ((setPermanentTextureState texId desc ts P).1).permanentTransition = true := rfl
  have hreq := requireTextureState_permanent texId desc
    (setPermanentTextureState texId desc ts P).1 sub Q hpermP
  have hstored : getTextureSubresourceState desc
      (setPermanentTextureState texId desc ts P).1 slice mip = P := by
    unfold getTextureSubresourceState
    show ((requireTextureState texId desc ts AllSubresources P).1).subresourceStates.getD
      (subresourceIndex desc mip slice) ResourceStates.Unknown = P
    rw [requireTextureState_fst texId desc ts AllSubresources P hperm]
    apply requireLoop_getD_covered desc P _ ts (mip, slice)
    · rw [resolve_allSubresources desc hm32 ha32]
      apply (mem_rangePairs _ mip slice).2
      simp only
      refine ⟨by omega, by omega, by omega, by omega⟩
    · rw [hlen]
      apply flatIndex_lt hmip
      split at hslice
      · omega
      · omega
  have hbpermP : ((setPermanentBufferState bufId bdesc bs Pb).1).permanentTransition = true :=
    rfl
  refine ⟨hreq, hstored, by rw [hreq]; exact hstored, ?_, ?_⟩
  · exact requireBufferState_permanent bufId bdesc _ Qb hbpermP
  · show ((setPermanentBufferState bufId bdesc bs Pb).1).state = Pb
    show ((requireBufferState bufId bdesc bs Pb).1).state = Pb
    exact requireBufferState_state_eq bufId bdesc bs Pb hbperm

/-- Witness for claim C5: a texture pinned to CopySource ignores a
subsequent whole-texture ShaderResource require and still reads back
CopySource; a buffer pinned to AccelStructRead ignores a CopyDest require
and still reads back AccelStructRead. -/
theorem claimC5_witness :
    requireTextureState 0 exDesc1 (setPermanentTextureState 0 exDesc1
        (TextureState.create 1) ResourceStates.CopySource).1 AllSubresources
        ResourceStates.ShaderResource =
      ((setPermanentTextureState 0 exDesc1 (TextureState.create 1)
        ResourceStates.CopySource).1, []) ∧
    getBufferState (setPermanentBufferState 1 { byteSize := 16, isVolatile := false }
      { state := ResourceStates.Unknown, enableUavBarriers := true,
        firstUavBarrierPlaced := false, volatileData := 0, permanentTransition := false }
      ResourceStates.AccelStructRead).1 = ResourceStates.AccelStructRead := by
  have h := claimC5_pinning 0 exDesc1 (TextureState.create 1) ResourceStates.CopySource
    ResourceStates.ShaderResource ResourceStates.AccelStructRead ResourceStates.CopyDest
    AllSubresources 0 0 1
    { byteSize := 16, isVolatile := false }
    { state := ResourceStates.Unknown, enableUavBarriers := true,
      firstUavBarrierPlaced := false, volatileData := 0, permanentTransition := false }
    (by decide) (by decide) (by decide) rfl (by decide) (by decide) (by decide) rfl
    (by decide) (by decide)
  exact ⟨h.1, h.2.2.2.2⟩

/-! Claims C7 and C8: the copy and write operations against the commit
protocol. -/

lemma commit_append_spec (cs0 : CmdState) (c : NativeCmd) :
    ({ commitBarriers cs0 with
        commands := (commitBarriers cs0).commands ++ [c] } : CmdState).textureBarriers = [] ∧
    ({ commitBarriers cs0 with
        commands := (commitBarriers cs0).commands ++ [c] } : CmdState).bufferBarriers = [] ∧
    ∃ flush, ({ commitBarriers cs0 with
        commands := (commitBarriers cs0).commands ++ [c] } : CmdState).commands =
        cs0.commands ++ flush ++ [c] ∧
      ∀ x ∈ flush, x.isCopyCmd = false := by
  obtain ⟨h1, h2⟩ := commitBarriers_clears cs0
  obtain ⟨-, flush, hf, hnc⟩ := commitBarriers_flush cs0
  refine ⟨h1, h2, flush, ?_, hnc⟩
  show (commitBarriers cs0).commands ++ [c] = cs0.commands ++ flush ++ [c]
  rw [hf]

/-- Claim C7: with automatic barriers enabled, every modelled copy/write
operation (copyBuffer, non-volatile writeBuffer, copyTexture to staging,
copyTexture from staging) first requires the needed states on its source
and destination, then invokes commitBarriers, and only then records the
native copy command: the native copy is the last recorded command, every
command recorded before it in the operation is a non-copy flush command,
the pending transition lists are empty from the moment the copy is
recorded, and the returned resource records carry the required states. -/
theorem claimC7_commitBeforeCopy (cs : CmdState)
    (destId srcId bufId dstBufId srcTexId dstTexId : Nat)
    (dest src buf stagingDst stagingSrc : Buffer) (srcTex dstTex : Texture)
    (dOff sOff size wOff wSize upId upOff gpuVA m1 a1 m2 a2 : Nat)
    (henable : cs.enableAutomaticBarriers = true)
    (hnv : buf.desc.isVolatile = false) :
    ((copyBuffer cs destId dest srcId src dOff sOff size).1.textureBarriers = [] ∧
     (copyBuffer cs destId dest srcId src dOff sOff size).1.bufferBarriers = [] ∧
     (∃ flush, (copyBuffer cs destId dest srcId src dOff sOff size).1.commands =
        cs.commands ++ flush ++ [NativeCmd.copyBufferRegion destId srcId dOff sOff size] ∧
        ∀ x ∈ flush, x.isCopyCmd = false) ∧
     (copyBuffer cs destId dest srcId src dOff sOff size).2.1.state =
       (requireBufferState destId dest.desc dest.state ResourceStates.CopyDest).1 ∧
     (copyBuffer cs destId dest srcId src dOff sOff size).2.2.state =
       (requireBufferState srcId src.desc src.state ResourceStates.CopySource).1) ∧
    ((writeBuffer cs bufId buf wOff wSize upId upOff gpuVA).1.textureBarriers = [] ∧
     (writeBuffer cs bufId buf wOff wSize upId upOff gpuVA).1.bufferBarriers = [] ∧
     (∃ flush, (writeBuffer cs bufId buf wOff wSize upId upOff gpuVA).1.commands =
        cs.commands ++ flush ++ [NativeCmd.copyBufferRegion bufId upId wOff upOff wSize] ∧
        ∀ x ∈ flush, x.isCopyCmd = false) ∧
     (writeBuffer cs bufId buf wOff wSize upId upOff gpuVA).2.state =
       (requireBufferState bufId buf.desc buf.state ResourceStates.CopyDest).1) ∧
    ((copyTextureToStaging cs dstBufId stagingDst srcTexId srcTex m1 a1).1.textureBarriers = []
     ∧
     (copyTextureToStaging cs dstBufId stagingDst srcTexId srcTex m1 a1).1.bufferBarriers = []
     ∧
     (∃ flush, (copyTextureToStaging cs dstBufId stagingDst srcTexId srcTex m1 a1).1.commands =
        cs.commands ++ flush ++ [NativeCmd.copyImageToBuffer srcTexId dstBufId] ∧
        ∀ x ∈ flush, x.isCopyCmd = false) ∧
     (copyTextureToStaging cs dstBufId stagingDst srcTexId srcTex m1 a1).2.1.state =
       (requireBufferState dstBufId stagingDst.desc stagingDst.state
         ResourceStates.CopyDest).1 ∧
     (copyTextureToStaging cs dstBufId stagingDst srcTexId srcTex m1 a1).2.2.state =
       (requireTextureState srcTexId srcTex.desc srcTex.state
         { baseMipLevel := m1, numMipLevels := 1, baseArraySlice := a1, numArraySlices := 1 }
         ResourceStates.CopySource).1) ∧
    ((copyStagingToTexture cs dstTexId dstTex srcId stagingSrc m2 a2).1.textureBarriers = [] ∧
     (copyStagingToTexture cs dstTexId dstTex srcId stagingSrc m2 a2).1.bufferBarriers = [] ∧
     (∃ flush, (copyStagingToTexture cs dstTexId dstTex srcId stagingSrc m2 a2).1.commands =
        cs.commands ++ flush ++ [NativeCmd.copyBufferToImage srcId dstTexId] ∧
        ∀ x ∈ flush, x.isCopyCmd = false) ∧
     (copyStagingToTexture cs dstTexId dstTex srcId stagingSrc m2 a2).2.1.state =
       (requireTextureState dstTexId dstTex.desc dstTex.state
         { baseMipLevel := m2, numMipLevels := 1, baseArraySlice := a2, numArraySlices := 1 }
         ResourceStates.CopyDest).1 ∧
     (copyStagingToTexture cs dstTexId dstTex srcId stagingSrc m2 a2).2.2.state =
       (requireBufferState srcId stagingSrc.desc stagingSrc.state
         ResourceStates.CopySource).1) := by
  refine ⟨?_, ?_, ?_, ?_⟩
  · have hred : copyBuffer cs destId dest srcId src dOff sOff size =
        ({ commitBarriers { cs with bufferBarriers := cs.bufferBarriers
              ++ (requireBufferState destId dest.desc dest.state ResourceStates.CopyDest).2
              ++ (requireBufferState srcId src.desc src.state ResourceStates.CopySource).2 } with
            commands := (commitBarriers { cs with bufferBarriers := cs.bufferBarriers
              ++ (requireBufferState destId dest.desc dest.state ResourceStates.CopyDest).2
              ++ (requireBufferState srcId src.desc src.state
                ResourceStates.CopySource).2 }).commands
              ++ [NativeCmd.copyBufferRegion destId srcId dOff sOff size] },
         { dest with state :=
            (requireBufferState destId dest.desc dest.state ResourceStates.CopyDest).1 },
         { src with state :=
            (requireBufferState srcId src.desc src.state ResourceStates.CopySource).1 }) := by
      unfold copyBuffer cmdRequireBufferState
      rw [if_pos henable]
    obtain ⟨h1, h2, h3⟩ := commit_append_spec
      { cs with bufferBarriers := cs.bufferBarriers
          ++ (requireBufferState destId dest.desc dest.state ResourceStates.CopyDest).2
          ++ (requireBufferState srcId src.desc src.state ResourceStates.CopySource).2 }
      (NativeCmd.copyBufferRegion destId srcId dOff sOff size)
    rw [hred]
    exact ⟨h1, h2, h3, rfl, rfl⟩
  · have hred : writeBuffer cs bufId buf wOff wSize upId upOff gpuVA =
        ({ commitBarriers { cs with bufferBarriers := cs.bufferBarriers
              ++ (requireBufferState bufId buf.desc buf.state ResourceStates.CopyDest).2 } with
            commands := (commitBarriers { cs with bufferBarriers := cs.bufferBarriers
              ++ (requireBufferState bufId buf.desc buf.state
                ResourceStates.CopyDest).2 }).commands
              ++ [NativeCmd.copyBufferRegion bufId upId wOff upOff wSize] },
         { buf with state :=
            (requireBufferState bufId buf.desc buf.state ResourceStates.CopyDest).1 }) := by
      unfold writeBuffer cmdRequireBufferState
      rw [if_neg (by rw [hnv]; exact Bool.false_ne_true), if_pos henable]
    obtain ⟨h1, h2, h3⟩ := commit_append_spec
      { cs with bufferBarriers := cs.bufferBarriers
          ++ (requireBufferState bufId buf.desc buf.state ResourceStates.CopyDest).2 }
      (NativeCmd.copyBufferRegion bufId upId wOff upOff wSize)
    rw [hred]
    exact ⟨h1, h2, h3, rfl⟩
  · have hred : copyTextureToStaging cs dstBufId stagingDst srcTexId srcTex m1 a1 =
        ({ commitBarriers { cs with
              bufferBarriers := cs.bufferBarriers
                ++ (requireBufferState dstBufId stagingDst.desc stagingDst.state
                  ResourceStates.CopyDest).2,
              textureBarriers := cs.textureBarriers
                ++ (requireTextureState srcTexId srcTex.desc srcTex.state
                  { baseMipLevel := m1, numMipLevels := 1, baseArraySlice := a1,
                    numArraySlices := 1 } ResourceStates.CopySource).2 } with
            commands := (commitBarriers { cs with
              bufferBarriers := cs.bufferBarriers
                ++ (requireBufferState dstBufId stagingDst.desc stagingDst.state
                  ResourceStates.CopyDest).2,
              textureBarriers := cs.textureBarriers
                ++ (requireTextureState srcTexId srcTex.desc srcTex.state
                  { baseMipLevel := m1, numMipLevels := 1, baseArraySlice := a1,
                    numArraySlices := 1 } ResourceStates.CopySource).2 }).commands
              ++ [NativeCmd.copyImageToBuffer srcTexId dstBufId] },
         { stagingDst with state :=
            (requireBufferState dstBufId stagingDst.desc stagingDst.state
              ResourceStates.CopyDest).1 },
         { srcTex with state :=
            (requireTextureState srcTexId srcTex.desc srcTex.state
              { baseMipLevel := m1, numMipLevels := 1, baseArraySlice := a1,
                numArraySlices := 1 } ResourceStates.CopySource).1 }) := by
      unfold copyTextureToStaging cmdRequireBufferState cmdRequireTextureState
      dsimp only
      rw [if_pos henable]
    obtain ⟨h1, h2, h3⟩ := commit_append_spec
      { cs with
          bufferBarriers := cs.bufferBarriers
            ++ (requireBufferState dstBufId stagingDst.desc stagingDst.state
              ResourceStates.CopyDest).2,
          textureBarriers := cs.textureBarriers
            ++ (requireTextureState srcTexId srcTex.desc srcTex.state
              { baseMipLevel := m1, numMipLevels := 1, baseArraySlice := a1,
                numArraySlices := 1 } ResourceStates.CopySource).2 }
      (NativeCmd.copyImageToBuffer srcTexId dstBufId)
    rw [hred]
    exact ⟨h1, h2, h3, rfl, rfl⟩
  · have hred : copyStagingToTexture cs dstTexId dstTex srcId stagingSrc m2 a2 =
        ({ commitBarriers { cs with
              bufferBarriers := cs.bufferBarriers
                ++ (requireBufferState srcId stagingSrc.desc stagingSrc.state
                  ResourceStates.CopySource).2,
              textureBarriers := cs.textureBarriers
                ++ (requireTextureState dstTexId dstTex.desc dstTex.state
                  { baseMipLevel := m2, numMipLevels := 1, baseArraySlice := a2,
                    numArraySlices := 1 } ResourceStates.CopyDest).2 } with
            commands := (commitBarriers { cs with
              bufferBarriers := cs.bufferBarriers
                ++ (requireBufferState srcId stagingSrc.desc stagingSrc.state
                  ResourceStates.CopySource).2,
              textureBarriers := cs.textureBarriers
                ++ (requireTextureState dstTexId dstTex.desc dstTex.state
                  { baseMipLevel := m2, numMipLevels := 1, baseArraySlice := a2,
                    numArraySlices := 1 } ResourceStates.CopyDest).2 }).commands
              ++ [NativeCmd.copyBufferToImage srcId dstTexId] },
         { dstTex with state :=
            (requireTextureState dstTexId dstTex.desc dstTex.state
              { baseMipLevel := m2, numMipLevels := 1, baseArraySlice := a2,
                numArraySlices := 1 } ResourceStates.CopyDest).1 },
         { stagingSrc with state :=
            (requireBufferState srcId stagingSrc.desc stagingSrc.state
              ResourceStates.CopySource).1 }) := by
      unfold copyStagingToTexture cmdRequireBufferState cmdRequireTextureState
      dsimp only
      rw [if_pos henable]
    obtain ⟨h1, h2, h3⟩ := commit_append_spec
      { cs with
          bufferBarriers := cs.bufferBarriers
            ++ (requireBufferState srcId stagingSrc.desc stagingSrc.state
              ResourceStates.CopySource).2,
          textureBarriers := cs.textureBarriers
            ++ (requireTextureState dstTexId dstTex.desc dstTex.state
              { baseMipLevel := m2, numMipLevels := 1, baseArraySlice := a2,
                numArraySlices := 1 } ResourceStates.CopyDest).2 }
      (NativeCmd.copyBufferToImage srcId dstTexId)
    rw [hred]
    exact ⟨h1, h2, h3, rfl, rfl⟩

/-- Witness for claim C7: a copyBuffer on an empty recording with
automatic barriers enabled leaves no pending transitions and records the
native copy last, after only non-copy flush commands. -/
theorem claimC7_witness :
    (copyBuffer exCmdStateAuto 0 exBuffer 1 exBuffer 0 0 4).1.bufferBarriers = [] ∧
    ∃ flush, (copyBuffer exCmdStateAuto 0 exBuffer 1 exBuffer 0 0 4).1.commands =
      exCmdStateAuto.commands ++ flush ++ [NativeCmd.copyBufferRegion 0 1 0 0 4] ∧
      ∀ x ∈ flush, x.isCopyCmd = false := by
  have h := claimC7_commitBeforeCopy exCmdStateAuto 0 1 2 3 4 5 exBuffer exBuffer exBuffer
    exBuffer exBuffer exTexture exTexture 0 0 4 0 4 9 0 0 0 0 0 0 rfl rfl
  exact ⟨h.1.2.1, h.1.2.2.1⟩

/-- Claim C8: with automatic barriers disabled, the modelled copy and
write operations perform no requireBufferState/requireTextureState — the
returned resource records are exactly the input records and no new
transition is synthesized — yet each still invokes commitBarriers on the
incoming state, flushing any transitions already pending, before recording
the native copy. -/
theorem claimC8_autoBarriersDisabled (cs : CmdState)
    (destId srcId bufId dstBufId srcTexId dstTexId : Nat)
    (dest src buf stagingDst stagingSrc : Buffer) (srcTex dstTex : Texture)
    (dOff sOff size wOff wSize upId upOff gpuVA m1 a1 m2 a2 : Nat)
    (hdisable : cs.enableAutomaticBarriers = false)
    (hnv : buf.desc.isVolatile = false) :
    copyBuffer cs destId dest srcId src dOff sOff size =
      ({ commitBarriers cs with commands := (commitBarriers cs).commands
          ++ [NativeCmd.copyBufferRegion destId srcId dOff sOff size] }, dest, src) ∧
    writeBuffer cs bufId buf wOff wSize upId upOff gpuVA =
      ({ commitBarriers cs with commands := (commitBarriers cs).commands
          ++ [NativeCmd.copyBufferRegion bufId upId wOff upOff wSize] }, buf) ∧
    copyTextureToStaging cs dstBufId stagingDst srcTexId srcTex m1 a1 =
      ({ commitBarriers cs with commands := (commitBarriers cs).commands
          ++ [NativeCmd.copyImageToBuffer srcTexId dstBufId] }, stagingDst, srcTex) ∧
    copyStagingToTexture cs dstTexId dstTex srcId stagingSrc m2 a2 =
      ({ commitBarriers cs with commands := (commitBarriers cs).commands
          ++ [NativeCmd.copyBufferToImage srcId dstTexId] }, dstTex, stagingSrc) ∧
    (commitBarriers cs).textureBarriers = [] ∧
    (commitBarriers cs).bufferBarriers = [] := by
  have hne : ¬(cs.enableAutomaticBarriers = true) := by
    rw [hdisable]
    exact Bool.false_ne_true
  obtain ⟨hc1, hc2⟩ := commitBarriers_clears cs
  refine ⟨?_, ?_, ?_, ?_, hc1, hc2⟩
  · unfold copyBuffer
    rw [if_neg hne]
  · unfold writeBuffer
    rw [if_neg (by rw [hnv]; exact Bool.false_ne_true), if_neg hne]
  · unfold copyTextureToStaging
    dsimp only
    rw [if_neg hne]
  · unfold copyStagingToTexture
    dsimp only
    rw [if_neg hne]

/-- Witness for claim C8: with automatic barriers disabled and one
leftover pending buffer record, copyBuffer leaves both resource records
untouched while the commit inside it still flushes the leftover record. -/
theorem claimC8_witness :
    copyBuffer exCmdStateNoAuto 0 exBuffer 1 exBuffer 0 0 4 =
      ({ commitBarriers exCmdStateNoAuto with
          commands := (commitBarriers exCmdStateNoAuto).commands
            ++ [NativeCmd.copyBufferRegion 0 1 0 0 4] }, exBuffer, exBuffer) ∧
    (commitBarriers exCmdStateNoAuto).bufferBarriers = [] := by
  have h := claimC8_autoBarriersDisabled exCmdStateNoAuto 0 1 2 3 4 5 exBuffer exBuffer
    exBuffer exBuffer exBuffer exTexture exTexture 0 0 4 0 4 9 0 0 0 0 0 0 rfl rfl
  exact ⟨h.1, h.2.2.2.2.2⟩

/-- Witness for the amended claim C1: with the dirty flag set, a UAV
binding set is submitted even though old and new bindings are compared
against an empty previous vector. -/
theorem claimC1_witness :
    ({ id := 7, isBindless := false, hasUavBindings := true } : BindingSetModel) ∈
      insertResourceBarriersForBindingSets true
        [{ id := 7, isBindless := false, hasUavBindings := true }] [] := by
  exact (claimC1_uavBindingSets true
    [{ id := 7, isBindless := false, hasUavBindings := true }] []).1 (Or.inl rfl)
    _ (List.mem_singleton.2 rfl) rfl rfl

end Nvrhi
